import Mathlib

/-!
Shallow embedding of the Meter aggregation engine of `dbus-mqtt-meter.py`
(class `Meter`: `__init__`, `set_path`, `update`, together with the
sequential message delivery performed by `Bridge._on_message`).

Modelling choices:
* Python floats are modelled as rationals (`ℚ`); all arithmetic of the
  engine (`1000.0 * (a - b)`, products, the division by the apparent-power
  sum) is exact on the inputs the claims use.
* The `self.data` dict is a record with one `Option ℚ` slot per key of
  the fixed universe of subscribed sensor keys (`none` = never stored).
  `Meter.__init__` pre-stores `0.0` for the two power-balance keys.
* The dbus service is a record with one `Option ℚ` slot per meter value
  path; every such path is added with initial value `None` in `__init__`.
* `set_path` mirrors the change-suppression gate
  (`if self.service[path] != value: self.service[path] = value`); the
  embedding additionally keeps two histories: `submissions`, one entry per
  `set_path` call (candidate offered to the gate), and `writes`, one entry
  per actual store into the service (a publish to the sink).
* The `try/except` control flow of `update` is made explicit with an
  `Outcome`: `KeyError` from a missing dict entry is caught and logged
  (`keyErrorCaught`), the `"unavailable"` sentinel is caught and skipped
  (`unavailableSkipped`), any other `ValueError` from `float()` is
  re-raised (`raisedValueError`), and `ZeroDivisionError` from the
  per-phase factor — caught by neither handler — propagates
  (`raisedZeroDiv`).  Mutations performed before the exception point
  persist, exactly as in Python.  The body of the `try` block is written
  as a chain of stage functions in source order.
-/

namespace MqttMeter

/-- The fixed universe of sensor keys the bridge subscribes to:
the eight keys of `Meter.data_map` plus the two power-balance keys
(`hass/sensor/<name>`; the caller strips the `/state` suffix). -/
inductive SensorKey where
  | zahlerstand_bezug
  | zahlerstand_einspeisung
  | netz_i1
  | netz_u1
  | netz_i2
  | netz_u2
  | netz_i3
  | netz_u3
  | netz_bezug
  | netz_einspeisung
deriving DecidableEq, Repr

/-- The meter value paths added on the dbus service in `Meter.__init__`
(each with initial value `None`). -/
inductive Path where
  | acEnergyForward
  | acEnergyReverse
  | acL1Current
  | acL1Voltage
  | acL1Power
  | acL2Current
  | acL2Voltage
  | acL2Power
  | acL3Current
  | acL3Voltage
  | acL3Power
  | acPower
deriving DecidableEq, Repr

/-- An MQTT payload, as seen by `update`: either it parses as a float
(`num`), or it is the literal `"unavailable"`, or `float()` fails on it
for any other reason (`malformed`). -/
inductive Payload where
  | num (v : ℚ)
  | unavailable
  | malformed
deriving DecidableEq, Repr

/-- How one call to `update` terminates. -/
inductive Outcome where
  | ok
  | keyErrorCaught
  | unavailableSkipped
  | raisedValueError
  | raisedZeroDiv
deriving DecidableEq, Repr

/-- `true` for the outcomes in which `update` lets an exception escape to
its caller. -/
def Outcome.escapes : Outcome → Bool
  | .raisedValueError => true
  | .raisedZeroDiv => true
  | _ => false

/-- The `self.data` dict: one slot per key of the fixed universe,
`none` = key never stored. -/
structure Data where
  zahlerstand_bezug : Option ℚ
  zahlerstand_einspeisung : Option ℚ
  netz_i1 : Option ℚ
  netz_u1 : Option ℚ
  netz_i2 : Option ℚ
  netz_u2 : Option ℚ
  netz_i3 : Option ℚ
  netz_u3 : Option ℚ
  netz_bezug : Option ℚ
  netz_einspeisung : Option ℚ
deriving DecidableEq, Repr

/-- Dict lookup `data[k]` (`none` = `KeyError`). -/
def Data.get (d : Data) : SensorKey → Option ℚ
  | .zahlerstand_bezug => d.zahlerstand_bezug
  | .zahlerstand_einspeisung => d.zahlerstand_einspeisung
  | .netz_i1 => d.netz_i1
  | .netz_u1 => d.netz_u1
  | .netz_i2 => d.netz_i2
  | .netz_u2 => d.netz_u2
  | .netz_i3 => d.netz_i3
  | .netz_u3 => d.netz_u3
  | .netz_bezug => d.netz_bezug
  | .netz_einspeisung => d.netz_einspeisung

/-- Dict store `data[k] = v`. -/
def Data.set (d : Data) (k : SensorKey) (v : ℚ) : Data :=
  match k with
  | .zahlerstand_bezug => { d with zahlerstand_bezug := some v }
  | .zahlerstand_einspeisung => { d with zahlerstand_einspeisung := some v }
  | .netz_i1 => { d with netz_i1 := some v }
  | .netz_u1 => { d with netz_u1 := some v }
  | .netz_i2 => { d with netz_i2 := some v }
  | .netz_u2 => { d with netz_u2 := some v }
  | .netz_i3 => { d with netz_i3 := some v }
  | .netz_u3 => { d with netz_u3 := some v }
  | .netz_bezug => { d with netz_bezug := some v }
  | .netz_einspeisung => { d with netz_einspeisung := some v }

/-- `self.data` right after `Meter.__init__`: only the two power-balance
keys are pre-stored, with value `0.0`. -/
def Data.init : Data :=
  { zahlerstand_bezug := none
    zahlerstand_einspeisung := none
    netz_i1 := none
    netz_u1 := none
    netz_i2 := none
    netz_u2 := none
    netz_i3 := none
    netz_u3 := none
    netz_bezug := some 0
    netz_einspeisung := some 0 }

/-- The dbus service: the current value of each meter value path. -/
structure Service where
  acEnergyForward : Option ℚ
  acEnergyReverse : Option ℚ
  acL1Current : Option ℚ
  acL1Voltage : Option ℚ
  acL1Power : Option ℚ
  acL2Current : Option ℚ
  acL2Voltage : Option ℚ
  acL2Power : Option ℚ
  acL3Current : Option ℚ
  acL3Voltage : Option ℚ
  acL3Power : Option ℚ
  acPower : Option ℚ
deriving DecidableEq, Repr

/-- `self.service[path]`. -/
def Service.get (s : Service) : Path → Option ℚ
  | .acEnergyForward => s.acEnergyForward
  | .acEnergyReverse => s.acEnergyReverse
  | .acL1Current => s.acL1Current
  | .acL1Voltage => s.acL1Voltage
  | .acL1Power => s.acL1Power
  | .acL2Current => s.acL2Current
  | .acL2Voltage => s.acL2Voltage
  | .acL2Power => s.acL2Power
  | .acL3Current => s.acL3Current
  | .acL3Voltage => s.acL3Voltage
  | .acL3Power => s.acL3Power
  | .acPower => s.acPower

/-- `self.service[path] = value`. -/
def Service.set (s : Service) (p : Path) (v : ℚ) : Service :=
  match p with
  | .acEnergyForward => { s with acEnergyForward := some v }
  | .acEnergyReverse => { s with acEnergyReverse := some v }
  | .acL1Current => { s with acL1Current := some v }
  | .acL1Voltage => { s with acL1Voltage := some v }
  | .acL1Power => { s with acL1Power := some v }
  | .acL2Current => { s with acL2Current := some v }
  | .acL2Voltage => { s with acL2Voltage := some v }
  | .acL2Power => { s with acL2Power := some v }
  | .acL3Current => { s with acL3Current := some v }
  | .acL3Voltage => { s with acL3Voltage := some v }
  | .acL3Power => { s with acL3Power := some v }
  | .acPower => { s with acPower := some v }

/-- The service right after `__init__`: every meter value path added
with value `None`. -/
def Service.init : Service :=
  { acEnergyForward := none
    acEnergyReverse := none
    acL1Current := none
    acL1Voltage := none
    acL1Power := none
    acL2Current := none
    acL2Voltage := none
    acL2Power := none
    acL3Current := none
    acL3Voltage := none
    acL3Power := none
    acPower := none }

/-- `Meter.data_map`: the pass-through table from sensor key to output
path.  The two power-balance keys are not in the table. -/
def dataMapPath : SensorKey → Option Path
  | .zahlerstand_bezug => some .acEnergyForward
  | .zahlerstand_einspeisung => some .acEnergyReverse
  | .netz_i1 => some .acL1Current
  | .netz_u1 => some .acL1Voltage
  | .netz_i2 => some .acL2Current
  | .netz_u2 => some .acL2Voltage
  | .netz_i3 => some .acL3Current
  | .netz_u3 => some .acL3Voltage
  | .netz_bezug => none
  | .netz_einspeisung => none

/-- `re.search(r"\d", sensor)`: the first digit occurring in the sensor
key, if any.  Only the six per-phase keys contain a digit. -/
def phaseDigit : SensorKey → Option Nat
  | .netz_i1 => some 1
  | .netz_u1 => some 1
  | .netz_i2 => some 2
  | .netz_u2 => some 2
  | .netz_i3 => some 3
  | .netz_u3 => some 3
  | _ => none

/-- `f"/Ac/L{phase_no}/Power"` for the digits `update` can extract. -/
def phasePowerPath : Nat → Path
  | 1 => .acL1Power
  | 2 => .acL2Power
  | _ => .acL3Power

/-- State of one `Meter` instance: the `self.data` dict, the dbus service
values, and the two publish histories kept by the embedding. -/
structure Meter where
  data : Data
  service : Service
  submissions : List (Path × ℚ)
  writes : List (Path × ℚ)
deriving DecidableEq, Repr

/-- `Meter.set_path`: the change-suppression gate.  Every call is recorded
in `submissions`; the service is written (and the write recorded in
`writes`) only when the candidate differs from the current service value
(`None` differs from every number). -/
def Meter.set_path (m : Meter) (p : Path) (v : ℚ) : Meter :=
  if m.service.get p ≠ some v then
    { m with
        submissions := m.submissions ++ [(p, v)]
        service := m.service.set p v
        writes := m.writes ++ [(p, v)] }
  else { m with submissions := m.submissions ++ [(p, v)] }

/-- A `Meter` right after `__init__`: pre-seeded dict, all meter value
paths at `None`, empty histories. -/
def Meter.init : Meter :=
  { data := Data.init
    service := Service.init
    submissions := []
    writes := [] }

/-- Lines 112–113 of the source: `if sensor in self.data_map:
self.set_path(self.data_map[sensor], value)`. -/
def passThrough (m1 : Meter) (k : SensorKey) (v : ℚ) : Meter :=
  match dataMapPath k with
  | some path => m1.set_path path v
  | none => m1

/-- Lines 121–140 of the source, entered with the total power already
published (`m3` is the state after `set_path("/Ac/Power", ...)`): the
sensor key carried phase digit `n`, so look up the six per-phase readings
(any missing one is a `KeyError`, caught by the handler), divide the
total power by the apparent-power sum (a zero sum is an uncaught
`ZeroDivisionError`) and publish `factor * i_n * u_n` on that phase's
power path. -/
def phaseStep (m3 : Meter) (n : Nat) (total_power : ℚ) : Meter × Outcome :=
  match m3.data.netz_i1, m3.data.netz_u1, m3.data.netz_i2,
        m3.data.netz_u2, m3.data.netz_i3, m3.data.netz_u3 with
  | some i1, some u1, some i2, some u2, some i3, some u3 =>
    if i1 * u1 + i2 * u2 + i3 * u3 = 0 then
      (m3, .raisedZeroDiv)
    else
      (m3.set_path (phasePowerPath n)
        (total_power / (i1 * u1 + i2 * u2 + i3 * u3) *
          (match n with | 1 => i1 | 2 => i2 | _ => i3) *
          (match n with | 1 => u1 | 2 => u2 | _ => u3)), .ok)
  | _, _, _, _, _, _ => (m3, .keyErrorCaught)

/-- Line 121 of the source: `match = re.search(r"\d", sensor)`; without a
digit in the key the `try` block ends after the total-power publish. -/
def afterTotal (m3 : Meter) (k : SensorKey) (total_power : ℚ) :
    Meter × Outcome :=
  match phaseDigit k with
  | none => (m3, .ok)
  | some n => phaseStep m3 n total_power

/-- Lines 115–119 of the source: `total_power = 1000.0 * (data[bezug] -
data[einspeisung]); set_path("/Ac/Power", total_power)` (a missing
power-balance entry would be a `KeyError`, caught by the handler). -/
def afterPass (m2 : Meter) (k : SensorKey) : Meter × Outcome :=
  match m2.data.netz_bezug, m2.data.netz_einspeisung with
  | some b, some e =>
    afterTotal (m2.set_path .acPower (1000 * (b - e))) k (1000 * (b - e))
  | _, _ => (m2, .keyErrorCaught)

/-- `Meter.update(topic, payload)`, with the `/state` suffix already
stripped by the embedding (`sensor = topic[:-6]`).  The source's single
`try` block is the chain: store the parsed value
(`self.data[sensor] = value`), pass it through `data_map`
(`passThrough`), always derive the total power (`afterPass`), and, when
the key carries a phase digit, derive that phase's power
(`afterTotal`/`phaseStep`). -/
def update (m : Meter) (k : SensorKey) (p : Payload) : Meter × Outcome :=
  match p with
  | .unavailable => (m, .unavailableSkipped)
  | .malformed => (m, .raisedValueError)
  | .num v => afterPass (passThrough { m with data := m.data.set k v } k v) k

/-- Sequential delivery of messages to the engine, as `Bridge._on_message`
does, one at a time; the state left behind by an update whose outcome is
an escaped exception is the state at the raise point. -/
def runUpdates (m : Meter) : List (SensorKey × Payload) → Meter
  | [] => m
  | (k, p) :: rest => runUpdates (update m k p).1 rest

/-- The apparent-power sum `i1*u1 + i2*u2 + i3*u3` over the stored
readings, when all six per-phase readings are present. -/
def denomOf (d : Data) : Option ℚ :=
  match d.netz_i1, d.netz_u1, d.netz_i2, d.netz_u2,
        d.netz_i3, d.netz_u3 with
  | some i1, some u1, some i2, some u2, some i3, some u3 =>
    some (i1 * u1 + i2 * u2 + i3 * u3)
  | _, _, _, _, _, _ => none

/-- The value of the last numeric (non-`unavailable`) update delivered
for key `k` in the sequence, if any. -/
def lastNum : List (SensorKey × Payload) → SensorKey → Option ℚ
  | [], _ => none
  | (k0, p0) :: rest, k =>
    match lastNum rest k with
    | some v => some v
    | none =>
      if k0 = k then
        match p0 with
        | .num v => some v
        | _ => none
      else none

/-! ### Concrete scenario lists and the states they reach

`c3list` is the §8 scenario of the spec (`import=10, export=2`, then the
six per-phase readings `i=10, u=230`); `c4list` builds a reachable state
in which the three published phase powers do not sum to the published
total; `c1list`/`c8list` drive the engine into the unguarded
zero-denominator division.  The `c3s<n>`/`c4s<n>` states below were
obtained by running the embedded engine and are certified by the
`c3step<n>`/`c4step<n>` lemmas. -/

def c3list : List (SensorKey × Payload) :=
  [(.netz_bezug, .num 10), (.netz_einspeisung, .num 2),
   (.netz_i1, .num 10), (.netz_u1, .num 230),
   (.netz_i2, .num 10), (.netz_u2, .num 230),
   (.netz_i3, .num 10), (.netz_u3, .num 230)]

def c4list : List (SensorKey × Payload) :=
  [(.netz_i1, .num 10), (.netz_u1, .num 230),
   (.netz_i2, .num 10), (.netz_u2, .num 230),
   (.netz_i3, .num 10), (.netz_u3, .num 230),
   (.netz_bezug, .num 8), (.netz_i1, .num 10), (.netz_i2, .num 10)]

def c1list : List (SensorKey × Payload) :=
  [(.netz_i1, .num 0), (.netz_u1, .num 0),
   (.netz_i2, .num 0), (.netz_u2, .num 0),
   (.netz_i3, .num 0), (.netz_u3, .num 0)]

def c8list : List (SensorKey × Payload) :=
  [(.netz_i1, .num 0), (.netz_u1, .num 230),
   (.netz_i2, .num 0), (.netz_u2, .num 230),
   (.netz_i3, .num 0), (.netz_u3, .num 230)]

/-- A small concrete state with every per-phase reading present and a
nonzero apparent-power sum, used to exercise the common-state phase-sum
property on explicit inputs. -/
def c4wit : Meter :=
  { data := { zahlerstand_bezug := none,
              zahlerstand_einspeisung := none,
              netz_i1 := some 1,
              netz_u1 := some 1,
              netz_i2 := some 0,
              netz_u2 := some 0,
              netz_i3 := some 0,
              netz_u3 := some 0,
              netz_bezug := some 1,
              netz_einspeisung := some 0 }
    service := Service.init
    submissions := []
    writes := [] }

/-- The engine state reached after delivering the first 1 updates of the C3 scenario list. -/
def c3s1 : Meter :=
  { data := { zahlerstand_bezug := none,
              zahlerstand_einspeisung := none,
              netz_i1 := none,
              netz_u1 := none,
              netz_i2 := none,
              netz_u2 := none,
              netz_i3 := none,
              netz_u3 := none,
              netz_bezug := some 10,
              netz_einspeisung := some 0 },
    service := { acEnergyForward := none,
                 acEnergyReverse := none,
                 acL1Current := none,
                 acL1Voltage := none,
                 acL1Power := none,
                 acL2Current := none,
                 acL2Voltage := none,
                 acL2Power := none,
                 acL3Current := none,
                 acL3Voltage := none,
                 acL3Power := none,
                 acPower := some 10000 },
    submissions := [(MqttMeter.Path.acPower, 10000)],
    writes := [(MqttMeter.Path.acPower, 10000)] }

/-- The engine state reached after delivering the first 2 updates of the C3 scenario list. -/
def c3s2 : Meter :=
  { data := { zahlerstand_bezug := none,
              zahlerstand_einspeisung := none,
              netz_i1 := none,
              netz_u1 := none,
              netz_i2 := none,
              netz_u2 := none,
              netz_i3 := none,
              netz_u3 := none,
              netz_bezug := some 10,
              netz_einspeisung := some 2 },
    service := { acEnergyForward := none,
                 acEnergyReverse := none,
                 acL1Current := none,
                 acL1Voltage := none,
                 acL1Power := none,
                 acL2Current := none,
                 acL2Voltage := none,
                 acL2Power := none,
                 acL3Current := none,
                 acL3Voltage := none,
                 acL3Power := none,
                 acPower := some 8000 },
    submissions := [(MqttMeter.Path.acPower, 10000), (MqttMeter.Path.acPower, 8000)],
    writes := [(MqttMeter.Path.acPower, 10000), (MqttMeter.Path.acPower, 8000)] }

/-- The engine state reached after delivering the first 3 updates of the C3 scenario list. -/
def c3s3 : Meter :=
  { data := { zahlerstand_bezug := none,
              zahlerstand_einspeisung := none,
              netz_i1 := some 10,
              netz_u1 := none,
              netz_i2 := none,
              netz_u2 := none,
              netz_i3 := none,
              netz_u3 := none,
              netz_bezug := some 10,
              netz_einspeisung := some 2 },
    service := { acEnergyForward := none,
                 acEnergyReverse := none,
                 acL1Current := some 10,
                 acL1Voltage := none,
                 acL1Power := none,
                 acL2Current := none,
                 acL2Voltage := none,
                 acL2Power := none,
                 acL3Current := none,
                 acL3Voltage := none,
                 acL3Power := none,
                 acPower := some 8000 },
    submissions := [(MqttMeter.Path.acPower, 10000),
                    (MqttMeter.Path.acPower, 8000),
                    (MqttMeter.Path.acL1Current, 10),
                    (MqttMeter.Path.acPower, 8000)],
    writes := [(MqttMeter.Path.acPower, 10000), (MqttMeter.Path.acPower, 8000), (MqttMeter.Path.acL1Current, 10)] }

/-- The engine state reached after delivering the first 4 updates of the C3 scenario list. -/
def c3s4 : Meter :=
  { data := { zahlerstand_bezug := none,
              zahlerstand_einspeisung := none,
              netz_i1 := some 10,
              netz_u1 := some 230,
              netz_i2 := none,
              netz_u2 := none,
              netz_i3 := none,
              netz_u3 := none,
              netz_bezug := some 10,
              netz_einspeisung := some 2 },
    service := { acEnergyForward := none,
                 acEnergyReverse := none,
                 acL1Current := some 10,
                 acL1Voltage := some 230,
                 acL1Power := none,
                 acL2Current := none,
                 acL2Voltage := none,
                 acL2Power := none,
                 acL3Current := none,
                 acL3Voltage := none,
                 acL3Power := none,
                 acPower := some 8000 },
    submissions := [(MqttMeter.Path.acPower, 10000),
                    (MqttMeter.Path.acPower, 8000),
                    (MqttMeter.Path.acL1Current, 10),
                    (MqttMeter.Path.acPower, 8000),
                    (MqttMeter.Path.acL1Voltage, 230),
                    (MqttMeter.Path.acPower, 8000)],
    writes := [(MqttMeter.Path.acPower, 10000),
               (MqttMeter.Path.acPower, 8000),
               (MqttMeter.Path.acL1Current, 10),
               (MqttMeter.Path.acL1Voltage, 230)] }

/-- The engine state reached after delivering the first 5 updates of the C3 scenario list. -/
def c3s5 : Meter :=
  { data := { zahlerstand_bezug := none,
              zahlerstand_einspeisung := none,
              netz_i1 := some 10,
              netz_u1 := some 230,
              netz_i2 := some 10,
              netz_u2 := none,
              netz_i3 := none,
              netz_u3 := none,
              netz_bezug := some 10,
              netz_einspeisung := some 2 },
    service := { acEnergyForward := none,
                 acEnergyReverse := none,
                 acL1Current := some 10,
                 acL1Voltage := some 230,
                 acL1Power := none,
                 acL2Current := some 10,
                 acL2Voltage := none,
                 acL2Power := none,
                 acL3Current := none,
                 acL3Voltage := none,
                 acL3Power := none,
                 acPower := some 8000 },
    submissions := [(MqttMeter.Path.acPower, 10000),
                    (MqttMeter.Path.acPower, 8000),
                    (MqttMeter.Path.acL1Current, 10),
                    (MqttMeter.Path.acPower, 8000),
                    (MqttMeter.Path.acL1Voltage, 230),
                    (MqttMeter.Path.acPower, 8000),
                    (MqttMeter.Path.acL2Current, 10),
                    (MqttMeter.Path.acPower, 8000)],
    writes := [(MqttMeter.Path.acPower, 10000),
               (MqttMeter.Path.acPower, 8000),
               (MqttMeter.Path.acL1Current, 10),
               (MqttMeter.Path.acL1Voltage, 230),
               (MqttMeter.Path.acL2Current, 10)] }

/-- The engine state reached after delivering the first 6 updates of the C3 scenario list. -/
def c3s6 : Meter :=
  { data := { zahlerstand_bezug := none,
              zahlerstand_einspeisung := none,
              netz_i1 := some 10,
              netz_u1 := some 230,
              netz_i2 := some 10,
              netz_u2 := some 230,
              netz_i3 := none,
              netz_u3 := none,
              netz_bezug := some 10,
              netz_einspeisung := some 2 },
    service := { acEnergyForward := none,
                 acEnergyReverse := none,
                 acL1Current := some 10,
                 acL1Voltage := some 230,
                 acL1Power := none,
                 acL2Current := some 10,
                 acL2Voltage := some 230,
                 acL2Power := none,
                 acL3Current := none,
                 acL3Voltage := none,
                 acL3Power := none,
                 acPower := some 8000 },
    submissions := [(MqttMeter.Path.acPower, 10000),
                    (MqttMeter.Path.acPower, 8000),
                    (MqttMeter.Path.acL1Current, 10),
                    (MqttMeter.Path.acPower, 8000),
                    (MqttMeter.Path.acL1Voltage, 230),
                    (MqttMeter.Path.acPower, 8000),
                    (MqttMeter.Path.acL2Current, 10),
                    (MqttMeter.Path.acPower, 8000),
                    (MqttMeter.Path.acL2Voltage, 230),
                    (MqttMeter.Path.acPower, 8000)],
    writes := [(MqttMeter.Path.acPower, 10000),
               (MqttMeter.Path.acPower, 8000),
               (MqttMeter.Path.acL1Current, 10),
               (MqttMeter.Path.acL1Voltage, 230),
               (MqttMeter.Path.acL2Current, 10),
               (MqttMeter.Path.acL2Voltage, 230)] }

/-- The engine state reached after delivering the first 7 updates of the C3 scenario list. -/
def c3s7 : Meter :=
  { data := { zahlerstand_bezug := none,
              zahlerstand_einspeisung := none,
              netz_i1 := some 10,
              netz_u1 := some 230,
              netz_i2 := some 10,
              netz_u2 := some 230,
              netz_i3 := some 10,
              netz_u3 := none,
              netz_bezug := some 10,
              netz_einspeisung := some 2 },
    service := { acEnergyForward := none,
                 acEnergyReverse := none,
                 acL1Current := some 10,
                 acL1Voltage := some 230,
                 acL1Power := none,
                 acL2Current := some 10,
                 acL2Voltage := some 230,
                 acL2Power := none,
                 acL3Current := some 10,
                 acL3Voltage := none,
                 acL3Power := none,
                 acPower := some 8000 },
    submissions := [(MqttMeter.Path.acPower, 10000),
                    (MqttMeter.Path.acPower, 8000),
                    (MqttMeter.Path.acL1Current, 10),
                    (MqttMeter.Path.acPower, 8000),
                    (MqttMeter.Path.acL1Voltage, 230),
                    (MqttMeter.Path.acPower, 8000),
                    (MqttMeter.Path.acL2Current, 10),
                    (MqttMeter.Path.acPower, 8000),
                    (MqttMeter.Path.acL2Voltage, 230),
                    (MqttMeter.Path.acPower, 8000),
                    (MqttMeter.Path.acL3Current, 10),
                    (MqttMeter.Path.acPower, 8000)],
    writes := [(MqttMeter.Path.acPower, 10000),
               (MqttMeter.Path.acPower, 8000),
               (MqttMeter.Path.acL1Current, 10),
               (MqttMeter.Path.acL1Voltage, 230),
               (MqttMeter.Path.acL2Current, 10),
               (MqttMeter.Path.acL2Voltage, 230),
               (MqttMeter.Path.acL3Current, 10)] }

/-- The engine state reached after delivering the first 8 updates of the C3 scenario list. -/
def c3s8 : Meter :=
  { data := { zahlerstand_bezug := none,
              zahlerstand_einspeisung := none,
              netz_i1 := some 10,
              netz_u1 := some 230,
              netz_i2 := some 10,
              netz_u2 := some 230,
              netz_i3 := some 10,
              netz_u3 := some 230,
              netz_bezug := some 10,
              netz_einspeisung := some 2 },
    service := { acEnergyForward := none,
                 acEnergyReverse := none,
                 acL1Current := some 10,
                 acL1Voltage := some 230,
                 acL1Power := none,
                 acL2Current := some 10,
                 acL2Voltage := some 230,
                 acL2Power := none,
                 acL3Current := some 10,
                 acL3Voltage := some 230,
                 acL3Power := some ((8000 : Rat)/3),
                 acPower := some 8000 },
    submissions := [(MqttMeter.Path.acPower, 10000),
                    (MqttMeter.Path.acPower, 8000),
                    (MqttMeter.Path.acL1Current, 10),
                    (MqttMeter.Path.acPower, 8000),
                    (MqttMeter.Path.acL1Voltage, 230),
                    (MqttMeter.Path.acPower, 8000),
                    (MqttMeter.Path.acL2Current, 10),
                    (MqttMeter.Path.acPower, 8000),
                    (MqttMeter.Path.acL2Voltage, 230),
                    (MqttMeter.Path.acPower, 8000),
                    (MqttMeter.Path.acL3Current, 10),
                    (MqttMeter.Path.acPower, 8000),
                    (MqttMeter.Path.acL3Voltage, 230),
                    (MqttMeter.Path.acPower, 8000),
                    (MqttMeter.Path.acL3Power, (8000 : Rat)/3)],
    writes := [(MqttMeter.Path.acPower, 10000),
               (MqttMeter.Path.acPower, 8000),
               (MqttMeter.Path.acL1Current, 10),
               (MqttMeter.Path.acL1Voltage, 230),
               (MqttMeter.Path.acL2Current, 10),
               (MqttMeter.Path.acL2Voltage, 230),
               (MqttMeter.Path.acL3Current, 10),
               (MqttMeter.Path.acL3Voltage, 230),
               (MqttMeter.Path.acL3Power, (8000 : Rat)/3)] }

/-- The engine state reached after delivering the first 1 updates of the C4 scenario list. -/
def c4s1 : Meter :=
  { data := { zahlerstand_bezug := none,
              zahlerstand_einspeisung := none,
              netz_i1 := some 10,
              netz_u1 := none,
              netz_i2 := none,
              netz_u2 := none,
              netz_i3 := none,
              netz_u3 := none,
              netz_bezug := some 0,
              netz_einspeisung := some 0 },
    service := { acEnergyForward := none,
                 acEnergyReverse := none,
                 acL1Current := some 10,
                 acL1Voltage := none,
                 acL1Power := none,
                 acL2Current := none,
                 acL2Voltage := none,
                 acL2Power := none,
                 acL3Current := none,
                 acL3Voltage := none,
                 acL3Power := none,
                 acPower := some 0 },
    submissions := [(MqttMeter.Path.acL1Current, 10), (MqttMeter.Path.acPower, 0)],
    writes := [(MqttMeter.Path.acL1Current, 10), (MqttMeter.Path.acPower, 0)] }

/-- The engine state reached after delivering the first 2 updates of the C4 scenario list. -/
def c4s2 : Meter :=
  { data := { zahlerstand_bezug := none,
              zahlerstand_einspeisung := none,
              netz_i1 := some 10,
              netz_u1 := some 230,
              netz_i2 := none,
              netz_u2 := none,
              netz_i3 := none,
              netz_u3 := none,
              netz_bezug := some 0,
              netz_einspeisung := some 0 },
    service := { acEnergyForward := none,
                 acEnergyReverse := none,
                 acL1Current := some 10,
                 acL1Voltage := some 230,
                 acL1Power := none,
                 acL2Current := none,
                 acL2Voltage := none,
                 acL2Power := none,
                 acL3Current := none,
                 acL3Voltage := none,
                 acL3Power := none,
                 acPower := some 0 },
    submissions := [(MqttMeter.Path.acL1Current, 10),
                    (MqttMeter.Path.acPower, 0),
                    (MqttMeter.Path.acL1Voltage, 230),
                    (MqttMeter.Path.acPower, 0)],
    writes := [(MqttMeter.Path.acL1Current, 10), (MqttMeter.Path.acPower, 0), (MqttMeter.Path.acL1Voltage, 230)] }

/-- The engine state reached after delivering the first 3 updates of the C4 scenario list. -/
def c4s3 : Meter :=
  { data := { zahlerstand_bezug := none,
              zahlerstand_einspeisung := none,
              netz_i1 := some 10,
              netz_u1 := some 230,
              netz_i2 := some 10,
              netz_u2 := none,
              netz_i3 := none,
              netz_u3 := none,
              netz_bezug := some 0,
              netz_einspeisung := some 0 },
    service := { acEnergyForward := none,
                 acEnergyReverse := none,
                 acL1Current := some 10,
                 acL1Voltage := some 230,
                 acL1Power := none,
                 acL2Current := some 10,
                 acL2Voltage := none,
                 acL2Power := none,
                 acL3Current := none,
                 acL3Voltage := none,
                 acL3Power := none,
                 acPower := some 0 },
    submissions := [(MqttMeter.Path.acL1Current, 10),
                    (MqttMeter.Path.acPower, 0),
                    (MqttMeter.Path.acL1Voltage, 230),
                    (MqttMeter.Path.acPower, 0),
                    (MqttMeter.Path.acL2Current, 10),
                    (MqttMeter.Path.acPower, 0)],
    writes := [(MqttMeter.Path.acL1Current, 10),
               (MqttMeter.Path.acPower, 0),
               (MqttMeter.Path.acL1Voltage, 230),
               (MqttMeter.Path.acL2Current, 10)] }

/-- The engine state reached after delivering the first 4 updates of the C4 scenario list. -/
def c4s4 : Meter :=
  { data := { zahlerstand_bezug := none,
              zahlerstand_einspeisung := none,
              netz_i1 := some 10,
              netz_u1 := some 230,
              netz_i2 := some 10,
              netz_u2 := some 230,
              netz_i3 := none,
              netz_u3 := none,
              netz_bezug := some 0,
              netz_einspeisung := some 0 },
    service := { acEnergyForward := none,
                 acEnergyReverse := none,
                 acL1Current := some 10,
                 acL1Voltage := some 230,
                 acL1Power := none,
                 acL2Current := some 10,
                 acL2Voltage := some 230,
                 acL2Power := none,
                 acL3Current := none,
                 acL3Voltage := none,
                 acL3Power := none,
                 acPower := some 0 },
    submissions := [(MqttMeter.Path.acL1Current, 10),
                    (MqttMeter.Path.acPower, 0),
                    (MqttMeter.Path.acL1Voltage, 230),
                    (MqttMeter.Path.acPower, 0),
                    (MqttMeter.Path.acL2Current, 10),
                    (MqttMeter.Path.acPower, 0),
                    (MqttMeter.Path.acL2Voltage, 230),
                    (MqttMeter.Path.acPower, 0)],
    writes := [(MqttMeter.Path.acL1Current, 10),
               (MqttMeter.Path.acPower, 0),
               (MqttMeter.Path.acL1Voltage, 230),
               (MqttMeter.Path.acL2Current, 10),
               (MqttMeter.Path.acL2Voltage, 230)] }

/-- The engine state reached after delivering the first 5 updates of the C4 scenario list. -/
def c4s5 : Meter :=
  { data := { zahlerstand_bezug := none,
              zahlerstand_einspeisung := none,
              netz_i1 := some 10,
              netz_u1 := some 230,
              netz_i2 := some 10,
              netz_u2 := some 230,
              netz_i3 := some 10,
              netz_u3 := none,
              netz_bezug := some 0,
              netz_einspeisung := some 0 },
    service := { acEnergyForward := none,
                 acEnergyReverse := none,
                 acL1Current := some 10,
                 acL1Voltage := some 230,
                 acL1Power := none,
                 acL2Current := some 10,
                 acL2Voltage := some 230,
                 acL2Power := none,
                 acL3Current := some 10,
                 acL3Voltage := none,
                 acL3Power := none,
                 acPower := some 0 },
    submissions := [(MqttMeter.Path.acL1Current, 10),
                    (MqttMeter.Path.acPower, 0),
                    (MqttMeter.Path.acL1Voltage, 230),
                    (MqttMeter.Path.acPower, 0),
                    (MqttMeter.Path.acL2Current, 10),
                    (MqttMeter.Path.acPower, 0),
                    (MqttMeter.Path.acL2Voltage, 230),
                    (MqttMeter.Path.acPower, 0),
                    (MqttMeter.Path.acL3Current, 10),
                    (MqttMeter.Path.acPower, 0)],
    writes := [(MqttMeter.Path.acL1Current, 10),
               (MqttMeter.Path.acPower, 0),
               (MqttMeter.Path.acL1Voltage, 230),
               (MqttMeter.Path.acL2Current, 10),
               (MqttMeter.Path.acL2Voltage, 230),
               (MqttMeter.Path.acL3Current, 10)] }

/-- The engine state reached after delivering the first 6 updates of the C4 scenario list. -/
def c4s6 : Meter :=
  { data := { zahlerstand_bezug := none,
              zahlerstand_einspeisung := none,
              netz_i1 := some 10,
              netz_u1 := some 230,
              netz_i2 := some 10,
              netz_u2 := some 230,
              netz_i3 := some 10,
              netz_u3 := some 230,
              netz_bezug := some 0,
              netz_einspeisung := some 0 },
    service := { acEnergyForward := none,
                 acEnergyReverse := none,
                 acL1Current := some 10,
                 acL1Voltage := some 230,
                 acL1Power := none,
                 acL2Current := some 10,
                 acL2Voltage := some 230,
                 acL2Power := none,
                 acL3Current := some 10,
                 acL3Voltage := some 230,
                 acL3Power := some 0,
                 acPower := some 0 },
    submissions := [(MqttMeter.Path.acL1Current, 10),
                    (MqttMeter.Path.acPower, 0),
                    (MqttMeter.Path.acL1Voltage, 230),
                    (MqttMeter.Path.acPower, 0),
                    (MqttMeter.Path.acL2Current, 10),
                    (MqttMeter.Path.acPower, 0),
                    (MqttMeter.Path.acL2Voltage, 230),
                    (MqttMeter.Path.acPower, 0),
                    (MqttMeter.Path.acL3Current, 10),
                    (MqttMeter.Path.acPower, 0),
                    (MqttMeter.Path.acL3Voltage, 230),
                    (MqttMeter.Path.acPower, 0),
                    (MqttMeter.Path.acL3Power, 0)],
    writes := [(MqttMeter.Path.acL1Current, 10),
               (MqttMeter.Path.acPower, 0),
               (MqttMeter.Path.acL1Voltage, 230),
               (MqttMeter.Path.acL2Current, 10),
               (MqttMeter.Path.acL2Voltage, 230),
               (MqttMeter.Path.acL3Current, 10),
               (MqttMeter.Path.acL3Voltage, 230),
               (MqttMeter.Path.acL3Power, 0)] }

/-- The engine state reached after delivering the first 7 updates of the C4 scenario list. -/
def c4s7 : Meter :=
  { data := { zahlerstand_bezug := none,
              zahlerstand_einspeisung := none,
              netz_i1 := some 10,
              netz_u1 := some 230,
              netz_i2 := some 10,
              netz_u2 := some 230,
              netz_i3 := some 10,
              netz_u3 := some 230,
              netz_bezug := some 8,
              netz_einspeisung := some 0 },
    service := { acEnergyForward := none,
                 acEnergyReverse := none,
                 acL1Current := some 10,
                 acL1Voltage := some 230,
                 acL1Power := none,
                 acL2Current := some 10,
                 acL2Voltage := some 230,
                 acL2Power := none,
                 acL3Current := some 10,
                 acL3Voltage := some 230,
                 acL3Power := some 0,
                 acPower := some 8000 },
    submissions := [(MqttMeter.Path.acL1Current, 10),
                    (MqttMeter.Path.acPower, 0),
                    (MqttMeter.Path.acL1Voltage, 230),
                    (MqttMeter.Path.acPower, 0),
                    (MqttMeter.Path.acL2Current, 10),
                    (MqttMeter.Path.acPower, 0),
                    (MqttMeter.Path.acL2Voltage, 230),
                    (MqttMeter.Path.acPower, 0),
                    (MqttMeter.Path.acL3Current, 10),
                    (MqttMeter.Path.acPower, 0),
                    (MqttMeter.Path.acL3Voltage, 230),
                    (MqttMeter.Path.acPower, 0),
                    (MqttMeter.Path.acL3Power, 0),
                    (MqttMeter.Path.acPower, 8000)],
    writes := [(MqttMeter.Path.acL1Current, 10),
               (MqttMeter.Path.acPower, 0),
               (MqttMeter.Path.acL1Voltage, 230),
               (MqttMeter.Path.acL2Current, 10),
               (MqttMeter.Path.acL2Voltage, 230),
               (MqttMeter.Path.acL3Current, 10),
               (MqttMeter.Path.acL3Voltage, 230),
               (MqttMeter.Path.acL3Power, 0),
               (MqttMeter.Path.acPower, 8000)] }

/-- The engine state reached after delivering the first 8 updates of the C4 scenario list. -/
def c4s8 : Meter :=
  { data := { zahlerstand_bezug := none,
              zahlerstand_einspeisung := none,
              netz_i1 := some 10,
              netz_u1 := some 230,
              netz_i2 := some 10,
              netz_u2 := some 230,
              netz_i3 := some 10,
              netz_u3 := some 230,
              netz_bezug := some 8,
              netz_einspeisung := some 0 },
    service := { acEnergyForward := none,
                 acEnergyReverse := none,
                 acL1Current := some 10,
                 acL1Voltage := some 230,
                 acL1Power := some ((8000 : Rat)/3),
                 acL2Current := some 10,
                 acL2Voltage := some 230,
                 acL2Power := none,
                 acL3Current := some 10,
                 acL3Voltage := some 230,
                 acL3Power := some 0,
                 acPower := some 8000 },
    submissions := [(MqttMeter.Path.acL1Current, 10),
                    (MqttMeter.Path.acPower, 0),
                    (MqttMeter.Path.acL1Voltage, 230),
                    (MqttMeter.Path.acPower, 0),
                    (MqttMeter.Path.acL2Current, 10),
                    (MqttMeter.Path.acPower, 0),
                    (MqttMeter.Path.acL2Voltage, 230),
                    (MqttMeter.Path.acPower, 0),
                    (MqttMeter.Path.acL3Current, 10),
                    (MqttMeter.Path.acPower, 0),
                    (MqttMeter.Path.acL3Voltage, 230),
                    (MqttMeter.Path.acPower, 0),
                    (MqttMeter.Path.acL3Power, 0),
                    (MqttMeter.Path.acPower, 8000),
                    (MqttMeter.Path.acL1Current, 10),
                    (MqttMeter.Path.acPower, 8000),
                    (MqttMeter.Path.acL1Power, (8000 : Rat)/3)],
    writes := [(MqttMeter.Path.acL1Current, 10),
               (MqttMeter.Path.acPower, 0),
               (MqttMeter.Path.acL1Voltage, 230),
               (MqttMeter.Path.acL2Current, 10),
               (MqttMeter.Path.acL2Voltage, 230),
               (MqttMeter.Path.acL3Current, 10),
               (MqttMeter.Path.acL3Voltage, 230),
               (MqttMeter.Path.acL3Power, 0),
               (MqttMeter.Path.acPower, 8000),
               (MqttMeter.Path.acL1Power, (8000 : Rat)/3)] }

/-- The engine state reached after delivering the first 9 updates of the C4 scenario list. -/
def c4s9 : Meter :=
  { data := { zahlerstand_bezug := none,
              zahlerstand_einspeisung := none,
              netz_i1 := some 10,
              netz_u1 := some 230,
              netz_i2 := some 10,
              netz_u2 := some 230,
              netz_i3 := some 10,
              netz_u3 := some 230,
              netz_bezug := some 8,
              netz_einspeisung := some 0 },
    service := { acEnergyForward := none,
                 acEnergyReverse := none,
                 acL1Current := some 10,
                 acL1Voltage := some 230,
                 acL1Power := some ((8000 : Rat)/3),
                 acL2Current := some 10,
                 acL2Voltage := some 230,
                 acL2Power := some ((8000 : Rat)/3),
                 acL3Current := some 10,
                 acL3Voltage := some 230,
                 acL3Power := some 0,
                 acPower := some 8000 },
    submissions := [(MqttMeter.Path.acL1Current, 10),
                    (MqttMeter.Path.acPower, 0),
                    (MqttMeter.Path.acL1Voltage, 230),
                    (MqttMeter.Path.acPower, 0),
                    (MqttMeter.Path.acL2Current, 10),
                    (MqttMeter.Path.acPower, 0),
                    (MqttMeter.Path.acL2Voltage, 230),
                    (MqttMeter.Path.acPower, 0),
                    (MqttMeter.Path.acL3Current, 10),
                    (MqttMeter.Path.acPower, 0),
                    (MqttMeter.Path.acL3Voltage, 230),
                    (MqttMeter.Path.acPower, 0),
                    (MqttMeter.Path.acL3Power, 0),
                    (MqttMeter.Path.acPower, 8000),
                    (MqttMeter.Path.acL1Current, 10),
                    (MqttMeter.Path.acPower, 8000),
                    (MqttMeter.Path.acL1Power, (8000 : Rat)/3),
                    (MqttMeter.Path.acL2Current, 10),
                    (MqttMeter.Path.acPower, 8000),
                    (MqttMeter.Path.acL2Power, (8000 : Rat)/3)],
    writes := [(MqttMeter.Path.acL1Current, 10),
               (MqttMeter.Path.acPower, 0),
               (MqttMeter.Path.acL1Voltage, 230),
               (MqttMeter.Path.acL2Current, 10),
               (MqttMeter.Path.acL2Voltage, 230),
               (MqttMeter.Path.acL3Current, 10),
               (MqttMeter.Path.acL3Voltage, 230),
               (MqttMeter.Path.acL3Power, 0),
               (MqttMeter.Path.acPower, 8000),
               (MqttMeter.Path.acL1Power, (8000 : Rat)/3),
               (MqttMeter.Path.acL2Power, (8000 : Rat)/3)] }

/-! ### Basic lemmas about the store and the change-suppression gate -/

theorem Service.get_set_same (s : Service) (p : Path) (v : ℚ) :
    (s.set p v).get p = some v := by
  cases p <;> rfl

theorem Service.get_set_other (s : Service) (p q : Path) (v : ℚ) (h : q ≠ p) :
    (s.set p v).get q = s.get q := by
  cases p <;> cases q <;> first | rfl | exact absurd rfl h

theorem Data.get_set (d : Data) (k : SensorKey) (v : ℚ) (k2 : SensorKey) :
    (d.set k v).get k2 = if k2 = k then some v else d.get k2 := by
  cases k <;> cases k2 <;> simp [Data.set, Data.get]

theorem Meter.set_path_data (m : Meter) (p : Path) (v : ℚ) :
    (m.set_path p v).data = m.data := by
  unfold Meter.set_path; split <;> rfl

theorem Meter.set_path_submissions (m : Meter) (p : Path) (v : ℚ) :
    (m.set_path p v).submissions = m.submissions ++ [(p, v)] := by
  unfold Meter.set_path; split <;> rfl

theorem Meter.set_path_get_same (m : Meter) (p : Path) (v : ℚ) :
    (m.set_path p v).service.get p = some v := by
  unfold Meter.set_path; split
  · exact Service.get_set_same m.service p v
  · next h => simpa using h

theorem Meter.set_path_get_other (m : Meter) (p : Path) (v : ℚ) (q : Path)
    (h : q ≠ p) : (m.set_path p v).service.get q = m.service.get q := by
  unfold Meter.set_path; split
  · exact Service.get_set_other m.service p q v h
  · rfl

theorem Meter.set_path_of_get_eq (m : Meter) (p : Path) (v : ℚ)
    (h : m.service.get p = some v) :
    m.set_path p v = { m with submissions := m.submissions ++ [(p, v)] } := by
  unfold Meter.set_path
  rw [if_neg (not_not_intro h)]

theorem Meter.set_path_writes_of_get_ne (m : Meter) (p : Path) (v : ℚ)
    (h : m.service.get p ≠ some v) :
    (m.set_path p v).writes = m.writes ++ [(p, v)] := by
  unfold Meter.set_path
  rw [if_pos h]

theorem Meter.set_path_writes_of_get_eq (m : Meter) (p : Path) (v : ℚ)
    (h : m.service.get p = some v) :
    (m.set_path p v).writes = m.writes := by
  rw [Meter.set_path_of_get_eq m p v h]

/-! ### Stage lemmas: what each stage of `update` preserves -/

theorem passThrough_data (m1 : Meter) (k : SensorKey) (v : ℚ) :
    (passThrough m1 k v).data = m1.data := by
  unfold passThrough; split
  · exact Meter.set_path_data ..
  · rfl

theorem passThrough_get_power (m1 : Meter) (k : SensorKey) (v : ℚ) (q : Path)
    (hq : q = .acL1Power ∨ q = .acL2Power ∨ q = .acL3Power ∨ q = .acPower) :
    (passThrough m1 k v).service.get q = m1.service.get q := by
  cases k <;> rcases hq with rfl | rfl | rfl | rfl <;>
    first
      | rfl
      | exact Meter.set_path_get_other _ _ _ _ (by decide)

theorem phasePowerPath_ne_acPower (n : Nat) : phasePowerPath n ≠ .acPower := by
  unfold phasePowerPath; split <;> decide

theorem phaseStep_data (m3 : Meter) (n : Nat) (tp : ℚ) :
    ((phaseStep m3 n tp).1).data = m3.data := by
  unfold phaseStep; split
  · split
    · rfl
    · exact Meter.set_path_data ..
  · rfl

theorem phaseStep_get_acPower (m3 : Meter) (n : Nat) (tp : ℚ) :
    ((phaseStep m3 n tp).1).service.get .acPower = m3.service.get .acPower := by
  unfold phaseStep; split
  · split
    · rfl
    · exact Meter.set_path_get_other _ _ _ _ (phasePowerPath_ne_acPower n).symm
  · rfl

theorem afterTotal_data (m3 : Meter) (k : SensorKey) (tp : ℚ) :
    ((afterTotal m3 k tp).1).data = m3.data := by
  unfold afterTotal; split
  · rfl
  · exact phaseStep_data ..

theorem afterTotal_get_acPower (m3 : Meter) (k : SensorKey) (tp : ℚ) :
    ((afterTotal m3 k tp).1).service.get .acPower = m3.service.get .acPower := by
  unfold afterTotal; split
  · rfl
  · exact phaseStep_get_acPower ..

theorem afterPass_data (m2 : Meter) (k : SensorKey) :
    ((afterPass m2 k).1).data = m2.data := by
  unfold afterPass; split
  · rw [afterTotal_data, Meter.set_path_data]
  · rfl

theorem update_unavailable (m : Meter) (k : SensorKey) :
    update m k .unavailable = (m, .unavailableSkipped) := rfl

theorem update_malformed (m : Meter) (k : SensorKey) :
    update m k .malformed = (m, .raisedValueError) := rfl

theorem update_num_data (m : Meter) (k : SensorKey) (v : ℚ) :
    ((update m k (.num v)).1).data = m.data.set k v := by
  show ((afterPass (passThrough { m with data := m.data.set k v } k v) k).1).data
      = m.data.set k v
  rw [afterPass_data, passThrough_data]

/-! ### The total-power publish performed by every numeric update -/

theorem update_num_get_acPower (m : Meter) (k : SensorKey) (v b e : ℚ)
    (hb : (m.data.set k v).netz_bezug = some b)
    (he : (m.data.set k v).netz_einspeisung = some e) :
    ((update m k (.num v)).1).service.get .acPower = some (1000 * (b - e)) := by
  show ((afterPass (passThrough { m with data := m.data.set k v } k v) k).1).service.get
        .acPower = some (1000 * (b - e))
  unfold afterPass
  rw [show (passThrough { m with data := m.data.set k v } k v).data
        = m.data.set k v from passThrough_data ..]
  rw [hb, he]
  rw [afterTotal_get_acPower, Meter.set_path_get_same]

theorem update_num_keyError_of_balance_missing (m : Meter) (k : SensorKey)
    (v : ℚ)
    (h : (m.data.set k v).netz_bezug = none ∨
         (m.data.set k v).netz_einspeisung = none) :
    (update m k (.num v)).2 = .keyErrorCaught := by
  show (afterPass (passThrough { m with data := m.data.set k v } k v) k).2
      = .keyErrorCaught
  unfold afterPass
  rw [show (passThrough { m with data := m.data.set k v } k v).data
        = m.data.set k v from passThrough_data ..]
  rcases h with h | h
  · rw [h]
  · rw [h]; cases (m.data.set k v).netz_bezug <;> rfl

/-! ### Updates on a power-balance key (no pass-through, no phase digit) -/

theorem update_balance_key (m : Meter) (k : SensorKey) (v b e : ℚ)
    (hk : dataMapPath k = none) (hp : phaseDigit k = none)
    (hb : (m.data.set k v).netz_bezug = some b)
    (he : (m.data.set k v).netz_einspeisung = some e) :
    update m k (.num v) =
      (Meter.set_path { m with data := m.data.set k v } .acPower
        (1000 * (b - e)), .ok) := by
  show afterPass (passThrough { m with data := m.data.set k v } k v) k
      = (Meter.set_path { m with data := m.data.set k v } .acPower
          (1000 * (b - e)), .ok)
  rw [show passThrough { m with data := m.data.set k v } k v
        = { m with data := m.data.set k v } by unfold passThrough; rw [hk]]
  unfold afterPass
  rw [show ({ m with data := m.data.set k v } : Meter).data = m.data.set k v
        from rfl]
  rw [hb, he]
  unfold afterTotal
  rw [hp]

/-! ### Which updates let an exception escape -/

theorem phaseStep_escapes (m3 : Meter) (n : Nat) (tp : ℚ) :
    ((phaseStep m3 n tp).2).escapes = true ↔ denomOf m3.data = some 0 := by
  unfold phaseStep denomOf
  cases h1 : m3.data.netz_i1 with
  | none => simp [Outcome.escapes]
  | some i1 =>
  cases h2 : m3.data.netz_u1 with
  | none => simp [Outcome.escapes]
  | some u1 =>
  cases h3 : m3.data.netz_i2 with
  | none => simp [Outcome.escapes]
  | some i2 =>
  cases h4 : m3.data.netz_u2 with
  | none => simp [Outcome.escapes]
  | some u2 =>
  cases h5 : m3.data.netz_i3 with
  | none => simp [Outcome.escapes]
  | some i3 =>
  cases h6 : m3.data.netz_u3 with
  | none => simp [Outcome.escapes]
  | some u3 =>
  by_cases hd : i1 * u1 + i2 * u2 + i3 * u3 = 0
  · simp [hd, Outcome.escapes]
  · simp [hd, Outcome.escapes]

theorem afterTotal_escapes (m3 : Meter) (k : SensorKey) (tp : ℚ) :
    ((afterTotal m3 k tp).2).escapes = true ↔
      ((phaseDigit k).isSome = true ∧ denomOf m3.data = some 0) := by
  unfold afterTotal
  cases hp : phaseDigit k
  · simp [Outcome.escapes]
  · simp [phaseStep_escapes]

theorem afterPass_escapes (m2 : Meter) (k : SensorKey) :
    ((afterPass m2 k).2).escapes = true ↔
      (((m2.data.netz_bezug).isSome = true ∧
        (m2.data.netz_einspeisung).isSome = true) ∧
        (phaseDigit k).isSome = true ∧ denomOf m2.data = some 0) := by
  unfold afterPass
  cases hb : m2.data.netz_bezug with
  | none => simp [Outcome.escapes]
  | some b =>
    cases he : m2.data.netz_einspeisung with
    | none => simp [Outcome.escapes]
    | some e =>
      rw [afterTotal_escapes]
      simp [Meter.set_path_data]

/-! ### Last-write-wins for the stored readings -/

theorem runUpdates_get (l : List (SensorKey × Payload)) :
    ∀ (m : Meter) (k : SensorKey),
      (runUpdates m l).data.get k =
        (match lastNum l k with
         | some v => some v
         | none => m.data.get k) := by
  induction l with
  | nil => intro m k; rfl
  | cons hd rest ih =>
    intro m k
    obtain ⟨k0, p0⟩ := hd
    have hstep : runUpdates m ((k0, p0) :: rest)
        = runUpdates (update m k0 p0).1 rest := rfl
    rw [hstep, ih]
    cases hl : lastNum rest k with
    | some v => simp [lastNum, hl]
    | none =>
      cases p0 with
      | num v =>
        rw [update_num_data, Data.get_set]
        by_cases hk : k = k0
        · subst hk; simp [lastNum, hl]
        · simp [lastNum, hl, hk, Ne.symm hk]
      | unavailable => simp [lastNum, hl, update_unavailable]
      | malformed => simp [lastNum, hl, update_malformed]

/-! ### Every numeric update submits a total-power candidate -/

theorem phaseStep_submissions_mono (m3 : Meter) (n : Nat) (tp : ℚ) :
    ∃ t, ((phaseStep m3 n tp).1).submissions = m3.submissions ++ t := by
  unfold phaseStep; split
  · split
    · exact ⟨[], by simp⟩
    · exact ⟨_, Meter.set_path_submissions ..⟩
  · exact ⟨[], by simp⟩

theorem afterTotal_submissions_mono (m3 : Meter) (k : SensorKey) (tp : ℚ) :
    ∃ t, ((afterTotal m3 k tp).1).submissions = m3.submissions ++ t := by
  unfold afterTotal; split
  · exact ⟨[], by simp⟩
  · exact phaseStep_submissions_mono ..

theorem update_num_submissions_acPower (m : Meter) (k : SensorKey) (v b e : ℚ)
    (hb : (m.data.set k v).netz_bezug = some b)
    (he : (m.data.set k v).netz_einspeisung = some e) :
    (Path.acPower, 1000 * (b - e)) ∈ ((update m k (.num v)).1).submissions := by
  show (Path.acPower, 1000 * (b - e)) ∈
      ((afterPass (passThrough { m with data := m.data.set k v } k v) k).1).submissions
  unfold afterPass
  rw [show (passThrough { m with data := m.data.set k v } k v).data
        = m.data.set k v from passThrough_data ..]
  rw [hb, he]
  obtain ⟨t, ht⟩ := afterTotal_submissions_mono
    (Meter.set_path (passThrough { m with data := m.data.set k v } k v) .acPower
      (1000 * (b - e))) k (1000 * (b - e))
  rw [ht, Meter.set_path_submissions]
  simp

theorem Data.set_bezug_isSome (d : Data) (k : SensorKey) (v : ℚ)
    (h : (d.netz_bezug).isSome = true) :
    (((d.set k v).netz_bezug)).isSome = true := by
  cases k <;> simp_all [Data.set]

theorem Data.set_einspeisung_isSome (d : Data) (k : SensorKey) (v : ℚ)
    (h : (d.netz_einspeisung).isSome = true) :
    (((d.set k v).netz_einspeisung)).isSome = true := by
  cases k <;> simp_all [Data.set]

theorem runUpdates_balance_isSome (l : List (SensorKey × Payload)) :
    ∀ m : Meter, (m.data.netz_bezug).isSome = true →
      (m.data.netz_einspeisung).isSome = true →
      ((runUpdates m l).data.netz_bezug).isSome = true ∧
        ((runUpdates m l).data.netz_einspeisung).isSome = true := by
  induction l with
  | nil => intro m h1 h2; exact ⟨h1, h2⟩
  | cons hd rest ih =>
    intro m h1 h2
    obtain ⟨k, p⟩ := hd
    have hstep : runUpdates m ((k, p) :: rest)
        = runUpdates (update m k p).1 rest := rfl
    rw [hstep]
    refine ih _ ?_ ?_ <;> cases p <;>
      simp only [update_num_data, update_unavailable, update_malformed] <;>
      first
        | exact h1
        | exact h2
        | exact Data.set_bezug_isSome _ _ _ h1
        | exact Data.set_einspeisung_isSome _ _ _ h2

/-! ### Explicit form of a per-phase current update when every reading is
present and the apparent-power sum is nonzero -/

theorem update_i1_spec (m : Meter) (v u1 i2 u2 i3 u3 b e : ℚ)
    (hu1 : m.data.netz_u1 = some u1) (hi2 : m.data.netz_i2 = some i2)
    (hu2 : m.data.netz_u2 = some u2) (hi3 : m.data.netz_i3 = some i3)
    (hu3 : m.data.netz_u3 = some u3) (hb : m.data.netz_bezug = some b)
    (he : m.data.netz_einspeisung = some e)
    (hd : v * u1 + i2 * u2 + i3 * u3 ≠ 0) :
    update m .netz_i1 (.num v) =
      (((({ m with data := m.data.set .netz_i1 v } : Meter).set_path
          .acL1Current v).set_path .acPower (1000 * (b - e))).set_path
          .acL1Power
          (1000 * (b - e) / (v * u1 + i2 * u2 + i3 * u3) * v * u1),
        .ok) := by
  show afterPass
      (passThrough { m with data := m.data.set .netz_i1 v } .netz_i1 v)
      .netz_i1 = _
  unfold passThrough afterPass afterTotal phaseStep
  simp [dataMapPath, phaseDigit, phasePowerPath, Meter.set_path_data,
    Data.set, hb, he, hu1, hi2, hu2, hi3, hu3, hd]

theorem update_i2_spec (m : Meter) (v i1 u1 u2 i3 u3 b e : ℚ)
    (hi1 : m.data.netz_i1 = some i1) (hu1 : m.data.netz_u1 = some u1)
    (hu2 : m.data.netz_u2 = some u2) (hi3 : m.data.netz_i3 = some i3)
    (hu3 : m.data.netz_u3 = some u3) (hb : m.data.netz_bezug = some b)
    (he : m.data.netz_einspeisung = some e)
    (hd : i1 * u1 + v * u2 + i3 * u3 ≠ 0) :
    update m .netz_i2 (.num v) =
      (((({ m with data := m.data.set .netz_i2 v } : Meter).set_path
          .acL2Current v).set_path .acPower (1000 * (b - e))).set_path
          .acL2Power
          (1000 * (b - e) / (i1 * u1 + v * u2 + i3 * u3) * v * u2),
        .ok) := by
  show afterPass
      (passThrough { m with data := m.data.set .netz_i2 v } .netz_i2 v)
      .netz_i2 = _
  unfold passThrough afterPass afterTotal phaseStep
  simp [dataMapPath, phaseDigit, phasePowerPath, Meter.set_path_data,
    Data.set, hb, he, hi1, hu1, hu2, hi3, hu3, hd]

theorem update_i3_spec (m : Meter) (v i1 u1 i2 u2 u3 b e : ℚ)
    (hi1 : m.data.netz_i1 = some i1) (hu1 : m.data.netz_u1 = some u1)
    (hi2 : m.data.netz_i2 = some i2) (hu2 : m.data.netz_u2 = some u2)
    (hu3 : m.data.netz_u3 = some u3) (hb : m.data.netz_bezug = some b)
    (he : m.data.netz_einspeisung = some e)
    (hd : i1 * u1 + i2 * u2 + v * u3 ≠ 0) :
    update m .netz_i3 (.num v) =
      (((({ m with data := m.data.set .netz_i3 v } : Meter).set_path
          .acL3Current v).set_path .acPower (1000 * (b - e))).set_path
          .acL3Power
          (1000 * (b - e) / (i1 * u1 + i2 * u2 + v * u3) * v * u3),
        .ok) := by
  show afterPass
      (passThrough { m with data := m.data.set .netz_i3 v } .netz_i3 v)
      .netz_i3 = _
  unfold passThrough afterPass afterTotal phaseStep
  simp [dataMapPath, phaseDigit, phasePowerPath, Meter.set_path_data,
    Data.set, hb, he, hi1, hu1, hi2, hu2, hu3, hd]

/-! ### A repeated power-balance pair is fully suppressed -/

theorem update_balance_key_suppressed (m : Meter) (k : SensorKey)
    (v b e : ℚ)
    (hk : dataMapPath k = none) (hp : phaseDigit k = none)
    (hb : (m.data.set k v).netz_bezug = some b)
    (he : (m.data.set k v).netz_einspeisung = some e)
    (hs : m.service.get .acPower = some (1000 * (b - e))) :
    update m k (.num v) =
      ({ m with
          data := m.data.set k v
          submissions := m.submissions ++ [(Path.acPower, 1000 * (b - e))] },
        .ok) := by
  rw [update_balance_key m k v b e hk hp hb he]
  rw [Meter.set_path_of_get_eq { m with data := m.data.set k v } Path.acPower
    (1000 * (b - e)) hs]

/-! ### Certification of the scenario states, one delivery at a time -/

theorem c3step1 :
    update Meter.init .netz_bezug (.num 10) = (c3s1, .ok) := by
  simp [update, afterPass, passThrough, Meter.set_path, dataMapPath, Data.set,
    Service.set, Service.get, afterTotal, phaseStep, phaseDigit, phasePowerPath,
    Meter.init, Data.init, Service.init, c3s1]
  try norm_num
  try simp

theorem c3step2 :
    update c3s1 .netz_einspeisung (.num 2) = (c3s2, .ok) := by
  simp [update, afterPass, passThrough, Meter.set_path, dataMapPath, Data.set,
    Service.set, Service.get, afterTotal, phaseStep, phaseDigit, phasePowerPath,
    Meter.init, Data.init, Service.init, c3s1, c3s2]
  try norm_num
  try simp

theorem c3step3 :
    update c3s2 .netz_i1 (.num 10) = (c3s3, .keyErrorCaught) := by
  simp [update, afterPass, passThrough, Meter.set_path, dataMapPath, Data.set,
    Service.set, Service.get, afterTotal, phaseStep, phaseDigit, phasePowerPath,
    Meter.init, Data.init, Service.init, c3s2, c3s3]
  try norm_num
  try simp

theorem c3step4 :
    update c3s3 .netz_u1 (.num 230) = (c3s4, .keyErrorCaught) := by
  simp [update, afterPass, passThrough, Meter.set_path, dataMapPath, Data.set,
    Service.set, Service.get, afterTotal, phaseStep, phaseDigit, phasePowerPath,
    Meter.init, Data.init, Service.init, c3s3, c3s4]
  try norm_num
  try simp

theorem c3step5 :
    update c3s4 .netz_i2 (.num 10) = (c3s5, .keyErrorCaught) := by
  simp [update, afterPass, passThrough, Meter.set_path, dataMapPath, Data.set,
    Service.set, Service.get, afterTotal, phaseStep, phaseDigit, phasePowerPath,
    Meter.init, Data.init, Service.init, c3s4, c3s5]
  try norm_num
  try simp

theorem c3step6 :
    update c3s5 .netz_u2 (.num 230) = (c3s6, .keyErrorCaught) := by
  simp [update, afterPass, passThrough, Meter.set_path, dataMapPath, Data.set,
    Service.set, Service.get, afterTotal, phaseStep, phaseDigit, phasePowerPath,
    Meter.init, Data.init, Service.init, c3s5, c3s6]
  try norm_num
  try simp

theorem c3step7 :
    update c3s6 .netz_i3 (.num 10) = (c3s7, .keyErrorCaught) := by
  simp [update, afterPass, passThrough, Meter.set_path, dataMapPath, Data.set,
    Service.set, Service.get, afterTotal, phaseStep, phaseDigit, phasePowerPath,
    Meter.init, Data.init, Service.init, c3s6, c3s7]
  try norm_num
  try simp

theorem c3step8 :
    update c3s7 .netz_u3 (.num 230) = (c3s8, .ok) := by
  simp [update, afterPass, passThrough, Meter.set_path, dataMapPath, Data.set,
    Service.set, Service.get, afterTotal, phaseStep, phaseDigit, phasePowerPath,
    Meter.init, Data.init, Service.init, c3s7, c3s8]
  try norm_num
  try simp

theorem c3run : runUpdates Meter.init c3list = c3s8 := by
  simp only [c3list, runUpdates, c3step1, c3step2, c3step3, c3step4, c3step5, c3step6, c3step7, c3step8]

theorem c4step1 :
    update Meter.init .netz_i1 (.num 10) = (c4s1, .keyErrorCaught) := by
  simp [update, afterPass, passThrough, Meter.set_path, dataMapPath, Data.set,
    Service.set, Service.get, afterTotal, phaseStep, phaseDigit, phasePowerPath,
    Meter.init, Data.init, Service.init, c4s1]
  try norm_num
  try simp

theorem c4step2 :
    update c4s1 .netz_u1 (.num 230) = (c4s2, .keyErrorCaught) := by
  simp [update, afterPass, passThrough, Meter.set_path, dataMapPath, Data.set,
    Service.set, Service.get, afterTotal, phaseStep, phaseDigit, phasePowerPath,
    Meter.init, Data.init, Service.init, c4s1, c4s2]
  try norm_num
  try simp

theorem c4step3 :
    update c4s2 .netz_i2 (.num 10) = (c4s3, .keyErrorCaught) := by
  simp [update, afterPass, passThrough, Meter.set_path, dataMapPath, Data.set,
    Service.set, Service.get, afterTotal, phaseStep, phaseDigit, phasePowerPath,
    Meter.init, Data.init, Service.init, c4s2, c4s3]
  try norm_num
  try simp

theorem c4step4 :
    update c4s3 .netz_u2 (.num 230) = (c4s4, .keyErrorCaught) := by
  simp [update, afterPass, passThrough, Meter.set_path, dataMapPath, Data.set,
    Service.set, Service.get, afterTotal, phaseStep, phaseDigit, phasePowerPath,
    Meter.init, Data.init, Service.init, c4s3, c4s4]
  try norm_num
  try simp

theorem c4step5 :
    update c4s4 .netz_i3 (.num 10) = (c4s5, .keyErrorCaught) := by
  simp [update, afterPass, passThrough, Meter.set_path, dataMapPath, Data.set,
    Service.set, Service.get, afterTotal, phaseStep, phaseDigit, phasePowerPath,
    Meter.init, Data.init, Service.init, c4s4, c4s5]
  try norm_num
  try simp

theorem c4step6 :
    update c4s5 .netz_u3 (.num 230) = (c4s6, .ok) := by
  simp [update, afterPass, passThrough, Meter.set_path, dataMapPath, Data.set,
    Service.set, Service.get, afterTotal, phaseStep, phaseDigit, phasePowerPath,
    Meter.init, Data.init, Service.init, c4s5, c4s6]
  try norm_num
  try simp

theorem c4step7 :
    update c4s6 .netz_bezug (.num 8) = (c4s7, .ok) := by
  simp [update, afterPass, passThrough, Meter.set_path, dataMapPath, Data.set,
    Service.set, Service.get, afterTotal, phaseStep, phaseDigit, phasePowerPath,
    Meter.init, Data.init, Service.init, c4s6, c4s7]
  try norm_num
  try simp

theorem c4step8 :
    update c4s7 .netz_i1 (.num 10) = (c4s8, .ok) := by
  simp [update, afterPass, passThrough, Meter.set_path, dataMapPath, Data.set,
    Service.set, Service.get, afterTotal, phaseStep, phaseDigit, phasePowerPath,
    Meter.init, Data.init, Service.init, c4s7, c4s8]
  try norm_num
  try simp

theorem c4step9 :
    update c4s8 .netz_i2 (.num 10) = (c4s9, .ok) := by
  simp [update, afterPass, passThrough, Meter.set_path, dataMapPath, Data.set,
    Service.set, Service.get, afterTotal, phaseStep, phaseDigit, phasePowerPath,
    Meter.init, Data.init, Service.init, c4s8, c4s9]
  try norm_num
  try simp

theorem c4run : runUpdates Meter.init c4list = c4s9 := by
  simp only [c4list, runUpdates, c4step1, c4step2, c4step3, c4step4, c4step5, c4step6, c4step7, c4step8, c4step9]

/-! ### Component form of the per-phase current updates -/

theorem update_i1_facts (m : Meter) (v u1 i2 u2 i3 u3 b e : ℚ)
    (hu1 : m.data.netz_u1 = some u1) (hi2 : m.data.netz_i2 = some i2)
    (hu2 : m.data.netz_u2 = some u2) (hi3 : m.data.netz_i3 = some i3)
    (hu3 : m.data.netz_u3 = some u3) (hb : m.data.netz_bezug = some b)
    (he : m.data.netz_einspeisung = some e)
    (hd : v * u1 + i2 * u2 + i3 * u3 ≠ 0) :
    ((update m .netz_i1 (.num v)).1).data = m.data.set .netz_i1 v
    ∧ ((update m .netz_i1 (.num v)).1).service.get .acL1Power
        = some (1000 * (b - e) / (v * u1 + i2 * u2 + i3 * u3) * v * u1)
    ∧ ((update m .netz_i1 (.num v)).1).service.get .acPower
        = some (1000 * (b - e))
    ∧ ((update m .netz_i1 (.num v)).1).service.get .acL2Power
        = m.service.get .acL2Power
    ∧ ((update m .netz_i1 (.num v)).1).service.get .acL3Power
        = m.service.get .acL3Power := by
  have h := update_i1_spec m v u1 i2 u2 i3 u3 b e hu1 hi2 hu2 hi3 hu3 hb he hd
  rw [h]
  refine ⟨by simp [Meter.set_path_data], ?_, ?_, ?_, ?_⟩
  · simp [Meter.set_path_get_same]
  · simp [Meter.set_path_get_same, Meter.set_path_get_other]
  · simp [Meter.set_path_get_other]
  · simp [Meter.set_path_get_other]

theorem update_i2_facts (m : Meter) (v i1 u1 u2 i3 u3 b e : ℚ)
    (hi1 : m.data.netz_i1 = some i1) (hu1 : m.data.netz_u1 = some u1)
    (hu2 : m.data.netz_u2 = some u2) (hi3 : m.data.netz_i3 = some i3)
    (hu3 : m.data.netz_u3 = some u3) (hb : m.data.netz_bezug = some b)
    (he : m.data.netz_einspeisung = some e)
    (hd : i1 * u1 + v * u2 + i3 * u3 ≠ 0) :
    ((update m .netz_i2 (.num v)).1).data = m.data.set .netz_i2 v
    ∧ ((update m .netz_i2 (.num v)).1).service.get .acL2Power
        = some (1000 * (b - e) / (i1 * u1 + v * u2 + i3 * u3) * v * u2)
    ∧ ((update m .netz_i2 (.num v)).1).service.get .acPower
        = some (1000 * (b - e))
    ∧ ((update m .netz_i2 (.num v)).1).service.get .acL1Power
        = m.service.get .acL1Power
    ∧ ((update m .netz_i2 (.num v)).1).service.get .acL3Power
        = m.service.get .acL3Power := by
  have h := update_i2_spec m v i1 u1 u2 i3 u3 b e hi1 hu1 hu2 hi3 hu3 hb he hd
  rw [h]
  refine ⟨by simp [Meter.set_path_data], ?_, ?_, ?_, ?_⟩
  · simp [Meter.set_path_get_same]
  · simp [Meter.set_path_get_same, Meter.set_path_get_other]
  · simp [Meter.set_path_get_other]
  · simp [Meter.set_path_get_other]

theorem update_i3_facts (m : Meter) (v i1 u1 i2 u2 u3 b e : ℚ)
    (hi1 : m.data.netz_i1 = some i1) (hu1 : m.data.netz_u1 = some u1)
    (hi2 : m.data.netz_i2 = some i2) (hu2 : m.data.netz_u2 = some u2)
    (hu3 : m.data.netz_u3 = some u3) (hb : m.data.netz_bezug = some b)
    (he : m.data.netz_einspeisung = some e)
    (hd : i1 * u1 + i2 * u2 + v * u3 ≠ 0) :
    ((update m .netz_i3 (.num v)).1).data = m.data.set .netz_i3 v
    ∧ ((update m .netz_i3 (.num v)).1).service.get .acL3Power
        = some (1000 * (b - e) / (i1 * u1 + i2 * u2 + v * u3) * v * u3)
    ∧ ((update m .netz_i3 (.num v)).1).service.get .acPower
        = some (1000 * (b - e))
    ∧ ((update m .netz_i3 (.num v)).1).service.get .acL1Power
        = m.service.get .acL1Power
    ∧ ((update m .netz_i3 (.num v)).1).service.get .acL2Power
        = m.service.get .acL2Power := by
  have h := update_i3_spec m v i1 u1 i2 u2 u3 b e hi1 hu1 hi2 hu2 hu3 hb he hd
  rw [h]
  refine ⟨by simp [Meter.set_path_data], ?_, ?_, ?_, ?_⟩
  · simp [Meter.set_path_get_same]
  · simp [Meter.set_path_get_same, Meter.set_path_get_other]
  · simp [Meter.set_path_get_other]
  · simp [Meter.set_path_get_other]

/-! ### Claim theorems -/

/-- C7: for every sensor key and every prior engine state, an update with
the literal `"unavailable"` payload completes without raising, leaves the
whole state (all stored readings, the service, and both publish
histories) exactly as it was, and publishes nothing. -/
theorem C7_unavailable_is_noop (m : Meter) (k : SensorKey) :
    update m k Payload.unavailable = (m, Outcome.unavailableSkipped)
    ∧ ((update m k Payload.unavailable).2).escapes = false :=
  ⟨rfl, rfl⟩

/-- C9: whenever both power-balance readings are present in the stored
state after the store of a numeric update, the value the update leaves on
the total-power output path is exactly `1000 * (import - export)` of the
currently stored readings. -/
theorem C9_total_power_formula (m : Meter) (k : SensorKey) (v b e : ℚ)
    (hb : (m.data.set k v).netz_bezug = some b)
    (he : (m.data.set k v).netz_einspeisung = some e) :
    ((update m k (.num v)).1).service.get .acPower = some (1000 * (b - e)) :=
  update_num_get_acPower m k v b e hb he

/-- Witness for C9 at a concrete input: a fresh engine receiving
`import = 5` ends with `1000 * (5 - 0)` on the total-power path. -/
theorem C9_total_power_formula_witness :
    ((update Meter.init .netz_bezug (.num 5)).1).service.get .acPower
      = some (1000 * (5 - 0)) :=
  C9_total_power_formula Meter.init .netz_bezug 5 5 0 rfl rfl

/-- C5: for every sequence of updates whose payloads all parse or are the
`"unavailable"` sentinel, the stored reading of each key after the
sequence is the value of the last numeric update delivered for that key,
and keys that received only `"unavailable"` or nothing retain their
initial state. -/
theorem C5_last_write_wins (l : List (SensorKey × Payload))
    (_hl : ∀ kp ∈ l, kp.2 ≠ Payload.malformed) (k : SensorKey) :
    (runUpdates Meter.init l).data.get k =
      (match lastNum l k with
       | some v => some v
       | none => Meter.init.data.get k) :=
  runUpdates_get l Meter.init k

/-- Witness for C5 at a concrete sequence: two numeric `i1` updates
followed by an `"unavailable"` `u1` update leave `i1` at the second
value. -/
theorem C5_last_write_wins_witness :
    (∀ kp ∈ ([(SensorKey.netz_i1, Payload.num 3),
        (SensorKey.netz_i1, Payload.num 4),
        (SensorKey.netz_u1, Payload.unavailable)] :
          List (SensorKey × Payload)), kp.2 ≠ Payload.malformed)
    ∧ (runUpdates Meter.init
        [(SensorKey.netz_i1, Payload.num 3),
         (SensorKey.netz_i1, Payload.num 4),
         (SensorKey.netz_u1, Payload.unavailable)]).data.get .netz_i1
      = some 4 := by
  refine ⟨by simp, ?_⟩
  have h := C5_last_write_wins
    [(SensorKey.netz_i1, Payload.num 3), (SensorKey.netz_i1, Payload.num 4),
     (SensorKey.netz_u1, Payload.unavailable)] (by simp) .netz_i1
  rw [h]
  simp [lastNum]

/-- C10: at construction the two power-balance readings are pre-stored as
`0.0`; that presence is an invariant of every reachable state, and under
it every numeric update computes a total-power candidate
`1000 * (bezug - einspeisung)` and submits it to the change-suppression
gate, leaving it as the current value of the total-power path. -/
theorem C10_balance_keys_initialized :
    Meter.init.data.netz_bezug = some 0
    ∧ Meter.init.data.netz_einspeisung = some 0
    ∧ (∀ l : List (SensorKey × Payload),
        ((runUpdates Meter.init l).data.netz_bezug).isSome = true
        ∧ ((runUpdates Meter.init l).data.netz_einspeisung).isSome = true)
    ∧ (∀ (m : Meter) (k : SensorKey) (v b e : ℚ),
        (m.data.set k v).netz_bezug = some b →
        (m.data.set k v).netz_einspeisung = some e →
        ((Path.acPower, 1000 * (b - e)) ∈ ((update m k (.num v)).1).submissions
          ∧ ((update m k (.num v)).1).service.get .acPower
              = some (1000 * (b - e)))) := by
  refine ⟨rfl, rfl, ?_, ?_⟩
  · intro l
    exact runUpdates_balance_isSome l Meter.init rfl rfl
  · intro m k v b e hb he
    exact ⟨update_num_submissions_acPower m k v b e hb he,
      update_num_get_acPower m k v b e hb he⟩

/-- Witness for C10 at a concrete input: the first `i1` update of a fresh
engine submits the candidate `1000 * (0 - 0)` for the total-power path. -/
theorem C10_balance_keys_initialized_witness :
    (Path.acPower, 1000 * ((0 : ℚ) - 0))
      ∈ ((update Meter.init .netz_i1 (.num 7)).1).submissions :=
  (C10_balance_keys_initialized.2.2.2 Meter.init .netz_i1 7 0 0 rfl rfl).1

/-- C8 (amended): `update` raises exactly when the payload is malformed
(the `ValueError` from `float()` is re-raised), or when the payload is
numeric, the key carries a phase digit, both power-balance readings and
all six per-phase readings are present after the store, and the
apparent-power sum is zero (the uncaught `ZeroDivisionError`); the
missing-dependency and `"unavailable"` cases are contained. -/
theorem C8_escape_characterization (m : Meter) (k : SensorKey) (p : Payload) :
    (((update m k p).2).escapes = true ↔
      (p = Payload.malformed ∨
        ∃ v, p = Payload.num v ∧ (phaseDigit k).isSome = true
          ∧ ((m.data.set k v).netz_bezug).isSome = true
          ∧ ((m.data.set k v).netz_einspeisung).isSome = true
          ∧ denomOf (m.data.set k v) = some 0))
    ∧ update m k Payload.malformed = (m, Outcome.raisedValueError) := by
  refine ⟨?_, rfl⟩
  cases p with
  | unavailable => simp [update, Outcome.escapes]
  | malformed => simp [update, Outcome.escapes]
  | num v =>
    have h : (update m k (.num v)).2
        = (afterPass (passThrough { m with data := m.data.set k v } k v) k).2 :=
      rfl
    rw [h, afterPass_escapes, passThrough_data]
    constructor
    · intro h'
      exact Or.inr ⟨v, rfl, h'.2.1, h'.1.1, h'.1.2, h'.2.2⟩
    · rintro (hmal | ⟨v', hv, hdig, hbz, hez, hden⟩)
      · exact absurd hmal (by simp)
      · injection hv with hv'
        subst hv'
        exact ⟨⟨hbz, hez⟩, hdig, hden⟩

/-- Counterexample to C8 as stated: a numeric payload can also raise.
With zero currents and 230 V voltages stored on all three phases,
delivering the numeric payload `230` for `u3` makes the apparent-power
sum zero and `update` raises `ZeroDivisionError`. -/
theorem C8_numeric_payload_raises :
    (update (runUpdates Meter.init (c8list.take 5)) .netz_u3 (.num 230)).2
      = Outcome.raisedZeroDiv
    ∧ ((update (runUpdates Meter.init (c8list.take 5)) .netz_u3
        (.num 230)).2).escapes = true
    ∧ Payload.num 230 ≠ Payload.malformed := by
  refine ⟨?_, ?_, by simp⟩ <;>
    simp [c8list, runUpdates, update, afterPass, passThrough, afterTotal,
      phaseStep, Meter.set_path, dataMapPath, phaseDigit, Data.set,
      Service.set, Service.get, Meter.init, Data.init, Service.init,
      Outcome.escapes]

/-- C1: when all six per-phase readings are stored and their
apparent-power sum is exactly zero, a numeric per-phase update does not
skip-and-log: it raises `ZeroDivisionError` (neither handler catches it),
though it still publishes no per-phase power value.  This certifies the
code's behaviour on the claim's failing input (all readings zero, then
`u3 = 0`). -/
theorem C1_zero_denominator_raises :
    denomOf (((runUpdates Meter.init (c1list.take 5)).data).set .netz_u3 0)
      = some 0
    ∧ (update (runUpdates Meter.init (c1list.take 5)) .netz_u3 (.num 0)).2
        = Outcome.raisedZeroDiv
    ∧ ((update (runUpdates Meter.init (c1list.take 5)) .netz_u3
        (.num 0)).2).escapes = true
    ∧ ((update (runUpdates Meter.init (c1list.take 5)) .netz_u3
        (.num 0)).1).service.acL1Power = none
    ∧ ((update (runUpdates Meter.init (c1list.take 5)) .netz_u3
        (.num 0)).1).service.acL2Power = none
    ∧ ((update (runUpdates Meter.init (c1list.take 5)) .netz_u3
        (.num 0)).1).service.acL3Power = none := by
  refine ⟨?_, ?_, ?_, ?_, ?_, ?_⟩ <;>
    simp [c1list, runUpdates, update, afterPass, passThrough, afterTotal,
      phaseStep, Meter.set_path, dataMapPath, phaseDigit, Data.set,
      Service.set, Service.get, Meter.init, Data.init, Service.init,
      Outcome.escapes, denomOf]

/-- Counterexample to C2 as stated: because both power-balance readings
are pre-stored as `0.0` at construction, the very first numeric update of
a fresh engine — here `i1 = 0`, with the export-total sensor never
delivered — publishes `0.0` to the total-power output path. -/
theorem C2_total_power_published_from_init :
    ((update Meter.init .netz_i1 (.num 0)).1).writes
        = [(Path.acL1Current, 0), (Path.acPower, 0)]
    ∧ ((update Meter.init .netz_i1 (.num 0)).1).service.acPower = some 0
    ∧ ((update Meter.init .netz_i1 (.num 0)).2).escapes = false := by
  refine ⟨?_, ?_, ?_⟩ <;>
    simp [update, afterPass, passThrough, afterTotal, phaseStep,
      Meter.set_path, dataMapPath, phaseDigit, Data.set, Service.set,
      Service.get, Meter.init, Data.init, Service.init, Outcome.escapes]

/-- C2 (amended): on a fresh engine, a numeric update for any per-phase
current/voltage key completes without raising (the missing per-phase
dependencies end in the caught `KeyError`), and no per-phase power path
is written; however the total-power path does receive the value `0.0`
derived from the zero-initialized power-balance readings. -/
theorem C2_no_phase_publish_on_fresh_engine (k : SensorKey) (v : ℚ)
    (h : (phaseDigit k).isSome = true) :
    ((update Meter.init k (.num v)).2).escapes = false
    ∧ (update Meter.init k (.num v)).2 = Outcome.keyErrorCaught
    ∧ ((update Meter.init k (.num v)).1).service.acL1Power = none
    ∧ ((update Meter.init k (.num v)).1).service.acL2Power = none
    ∧ ((update Meter.init k (.num v)).1).service.acL3Power = none
    ∧ ((update Meter.init k (.num v)).1).service.acPower = some 0 := by
  cases k
  case zahlerstand_bezug => simp [phaseDigit] at h
  case zahlerstand_einspeisung => simp [phaseDigit] at h
  case netz_bezug => simp [phaseDigit] at h
  case netz_einspeisung => simp [phaseDigit] at h
  all_goals
    refine ⟨?_, ?_, ?_, ?_, ?_, ?_⟩ <;>
      simp [update, afterPass, passThrough, afterTotal, phaseStep,
        Meter.set_path, dataMapPath, phaseDigit, Data.set, Service.set,
        Service.get, Meter.init, Data.init, Service.init,
        Outcome.escapes]

/-- Witness for the amended C2 at a concrete input: the first `i1 = 3`
update of a fresh engine is contained and writes no per-phase power. -/
theorem C2_no_phase_publish_witness :
    ((update Meter.init .netz_i1 (.num 3)).2).escapes = false
    ∧ (update Meter.init .netz_i1 (.num 3)).2 = Outcome.keyErrorCaught
    ∧ ((update Meter.init .netz_i1 (.num 3)).1).service.acL1Power = none
    ∧ ((update Meter.init .netz_i1 (.num 3)).1).service.acL2Power = none
    ∧ ((update Meter.init .netz_i1 (.num 3)).1).service.acL3Power = none
    ∧ ((update Meter.init .netz_i1 (.num 3)).1).service.acPower = some 0 :=
  C2_no_phase_publish_on_fresh_engine .netz_i1 3 rfl

/-- Counterexample to C3 as stated: after the full scenario sequence, the
phase-1 and phase-2 power paths never received any publish (their
derivations were skipped on a caught `KeyError` while the six readings
were still arriving); only the phase-3 path was written.  The complete
write history contains no `acL1Power`/`acL2Power` entry. -/
theorem C3_phase12_never_published :
    (runUpdates Meter.init c3list).service.acL1Power = none
    ∧ (runUpdates Meter.init c3list).service.acL2Power = none
    ∧ (runUpdates Meter.init c3list).writes
        = [(Path.acPower, 10000), (Path.acPower, 8000),
           (Path.acL1Current, 10), (Path.acL1Voltage, 230),
           (Path.acL2Current, 10), (Path.acL2Voltage, 230),
           (Path.acL3Current, 10), (Path.acL3Voltage, 230),
           (Path.acL3Power, 8000 / 3)] := by
  rw [c3run]
  exact ⟨rfl, rfl, rfl⟩

/-- C3 (amended): the scenario `import=10, export=2` publishes `8000.0` W
on the total-power path; the six per-phase updates then publish
`8000/3 ≈ 2666.67` W on the phase-3 power path only (the phase whose
sensor arrived once all six readings were present); phase 1 and phase 2
receive no publish.  Three equal shares would indeed sum to `8000`. -/
theorem C3_scenario_results :
    (runUpdates Meter.init c3list).service.acPower = some 8000
    ∧ (Path.acPower, 8000) ∈ (runUpdates Meter.init c3list).writes
    ∧ (runUpdates Meter.init c3list).service.acL3Power = some (8000 / 3)
    ∧ (Path.acL3Power, 8000 / 3) ∈ (runUpdates Meter.init c3list).writes
    ∧ (runUpdates Meter.init c3list).service.acL1Power = none
    ∧ (runUpdates Meter.init c3list).service.acL2Power = none
    ∧ (8000 / 3 : ℚ) + 8000 / 3 + 8000 / 3 = 8000 := by
  rw [c3run]
  refine ⟨rfl, ?_, rfl, ?_, rfl, rfl, by norm_num⟩
  · simp [c3s8]
  · simp [c3s8]

/-- Counterexample to C4 as stated: a reachable state in which all three
phases have apparent power `10 * 230 > 0`, yet the last-published phase
powers are `8000/3`, `8000/3` and `0` (the phase-3 value predates the
total-power change) while the last-published total is `8000`; the sum
`16000/3` is nowhere near `8000`. -/
theorem C4_published_sum_mismatch :
    (runUpdates Meter.init c4list).data.netz_i1 = some 10
    ∧ (runUpdates Meter.init c4list).data.netz_u1 = some 230
    ∧ (runUpdates Meter.init c4list).data.netz_i2 = some 10
    ∧ (runUpdates Meter.init c4list).data.netz_u2 = some 230
    ∧ (runUpdates Meter.init c4list).data.netz_i3 = some 10
    ∧ (runUpdates Meter.init c4list).data.netz_u3 = some 230
    ∧ (0 : ℚ) < 10 * 230
    ∧ (runUpdates Meter.init c4list).service.acL1Power = some (8000 / 3)
    ∧ (runUpdates Meter.init c4list).service.acL2Power = some (8000 / 3)
    ∧ (runUpdates Meter.init c4list).service.acL3Power = some 0
    ∧ (runUpdates Meter.init c4list).service.acPower = some 8000
    ∧ (8000 / 3 : ℚ) + 8000 / 3 + 0 ≠ 8000 := by
  rw [c4run]
  refine ⟨rfl, rfl, rfl, rfl, rfl, rfl, by norm_num, rfl, rfl, rfl, rfl,
    by norm_num⟩

/-- C4 (amended): when the three per-phase power values are all derived
from one common state — same six readings, same power-balance readings,
nonzero apparent-power sum, obtained here by re-delivering the three
stored currents — they sum exactly to the total power `1000 * (b - e)`
left on the total-power path.  (The published values of the original
claim may stem from different states and need not sum to the total.) -/
theorem C4_common_state_phase_sum (m : Meter) (i1 u1 i2 u2 i3 u3 b e : ℚ)
    (_hi1 : m.data.netz_i1 = some i1) (hu1 : m.data.netz_u1 = some u1)
    (hi2 : m.data.netz_i2 = some i2) (hu2 : m.data.netz_u2 = some u2)
    (hi3 : m.data.netz_i3 = some i3) (hu3 : m.data.netz_u3 = some u3)
    (hb : m.data.netz_bezug = some b) (he : m.data.netz_einspeisung = some e)
    (hd : i1 * u1 + i2 * u2 + i3 * u3 ≠ 0) :
    ∃ p1 p2 p3,
      (runUpdates m [(.netz_i1, .num i1), (.netz_i2, .num i2),
        (.netz_i3, .num i3)]).service.get .acL1Power = some p1
      ∧ (runUpdates m [(.netz_i1, .num i1), (.netz_i2, .num i2),
          (.netz_i3, .num i3)]).service.get .acL2Power = some p2
      ∧ (runUpdates m [(.netz_i1, .num i1), (.netz_i2, .num i2),
          (.netz_i3, .num i3)]).service.get .acL3Power = some p3
      ∧ (runUpdates m [(.netz_i1, .num i1), (.netz_i2, .num i2),
          (.netz_i3, .num i3)]).service.get .acPower = some (1000 * (b - e))
      ∧ p1 + p2 + p3 = 1000 * (b - e) := by
  have hrun : runUpdates m [(.netz_i1, .num i1), (.netz_i2, .num i2),
      (.netz_i3, .num i3)]
      = (update (update (update m .netz_i1 (.num i1)).1 .netz_i2
          (.num i2)).1 .netz_i3 (.num i3)).1 := rfl
  obtain ⟨d1, L1a, P1, keepL2a, keepL3a⟩ :=
    update_i1_facts m i1 u1 i2 u2 i3 u3 b e hu1 hi2 hu2 hi3 hu3 hb he hd
  have m1i1 : ((update m .netz_i1 (.num i1)).1).data.netz_i1 = some i1 := by
    rw [d1]; simp [Data.set]
  have m1u1 : ((update m .netz_i1 (.num i1)).1).data.netz_u1 = some u1 := by
    rw [d1]; simpa [Data.set] using hu1
  have m1u2 : ((update m .netz_i1 (.num i1)).1).data.netz_u2 = some u2 := by
    rw [d1]; simpa [Data.set] using hu2
  have m1i3 : ((update m .netz_i1 (.num i1)).1).data.netz_i3 = some i3 := by
    rw [d1]; simpa [Data.set] using hi3
  have m1u3 : ((update m .netz_i1 (.num i1)).1).data.netz_u3 = some u3 := by
    rw [d1]; simpa [Data.set] using hu3
  have m1b : ((update m .netz_i1 (.num i1)).1).data.netz_bezug = some b := by
    rw [d1]; simpa [Data.set] using hb
  have m1e : ((update m .netz_i1 (.num i1)).1).data.netz_einspeisung
      = some e := by
    rw [d1]; simpa [Data.set] using he
  obtain ⟨d2, L2b, P2, keepL1b, keepL3b⟩ :=
    update_i2_facts ((update m .netz_i1 (.num i1)).1) i2 i1 u1 u2 i3 u3 b e
      m1i1 m1u1 m1u2 m1i3 m1u3 m1b m1e hd
  have m2i1 : ((update (update m .netz_i1 (.num i1)).1 .netz_i2
      (.num i2)).1).data.netz_i1 = some i1 := by
    rw [d2]; simpa [Data.set] using m1i1
  have m2u1 : ((update (update m .netz_i1 (.num i1)).1 .netz_i2
      (.num i2)).1).data.netz_u1 = some u1 := by
    rw [d2]; simpa [Data.set] using m1u1
  have m2i2 : ((update (update m .netz_i1 (.num i1)).1 .netz_i2
      (.num i2)).1).data.netz_i2 = some i2 := by
    rw [d2]; simp [Data.set]
  have m2u2 : ((update (update m .netz_i1 (.num i1)).1 .netz_i2
      (.num i2)).1).data.netz_u2 = some u2 := by
    rw [d2]; simpa [Data.set] using m1u2
  have m2u3 : ((update (update m .netz_i1 (.num i1)).1 .netz_i2
      (.num i2)).1).data.netz_u3 = some u3 := by
    rw [d2]; simpa [Data.set] using m1u3
  have m2b : ((update (update m .netz_i1 (.num i1)).1 .netz_i2
      (.num i2)).1).data.netz_bezug = some b := by
    rw [d2]; simpa [Data.set] using m1b
  have m2e : ((update (update m .netz_i1 (.num i1)).1 .netz_i2
      (.num i2)).1).data.netz_einspeisung = some e := by
    rw [d2]; simpa [Data.set] using m1e
  obtain ⟨d3, L3c, P3, keepL1c, keepL2c⟩ :=
    update_i3_facts ((update (update m .netz_i1 (.num i1)).1 .netz_i2
        (.num i2)).1) i3 i1 u1 i2 u2 u3 b e
      m2i1 m2u1 m2i2 m2u2 m2u3 m2b m2e hd
  refine ⟨1000 * (b - e) / (i1 * u1 + i2 * u2 + i3 * u3) * i1 * u1,
    1000 * (b - e) / (i1 * u1 + i2 * u2 + i3 * u3) * i2 * u2,
    1000 * (b - e) / (i1 * u1 + i2 * u2 + i3 * u3) * i3 * u3,
    ?_, ?_, ?_, ?_, ?_⟩
  · rw [hrun, keepL1c, keepL1b]; exact L1a
  · rw [hrun, keepL2c]; exact L2b
  · rw [hrun]; exact L3c
  · rw [hrun]; exact P3
  · field_simp
    ring

/-- Witness for the amended C4 at a concrete state: readings
`i1 = u1 = 1`, the other phases zero, `import = 1`, `export = 0`; the
re-delivered currents leave phase powers summing to `1000 * (1 - 0)`. -/
theorem C4_common_state_phase_sum_witness :
    ∃ p1 p2 p3,
      (runUpdates c4wit [(.netz_i1, .num 1), (.netz_i2, .num 0),
        (.netz_i3, .num 0)]).service.get .acL1Power = some p1
      ∧ (runUpdates c4wit [(.netz_i1, .num 1), (.netz_i2, .num 0),
          (.netz_i3, .num 0)]).service.get .acL2Power = some p2
      ∧ (runUpdates c4wit [(.netz_i1, .num 1), (.netz_i2, .num 0),
          (.netz_i3, .num 0)]).service.get .acL3Power = some p3
      ∧ (runUpdates c4wit [(.netz_i1, .num 1), (.netz_i2, .num 0),
          (.netz_i3, .num 0)]).service.get .acPower = some (1000 * (1 - 0))
      ∧ p1 + p2 + p3 = 1000 * (1 - 0) :=
  C4_common_state_phase_sum c4wit 1 1 0 0 0 0 1 0 rfl rfl rfl rfl rfl rfl
    rfl rfl (by simp)

/-- C6: the change-suppression gate writes to the sink exactly when the
candidate differs (exact equality on the stored representation) from the
value previously published for that path, and afterwards the path holds
the candidate; in particular, delivering the same import/export pair
twice in a row derives the same total power `1000 * (a - b)` both times
and the second delivery performs no write at all. -/
theorem C6_change_suppression_gate (m : Meter) (p : Path) (v : ℚ)
    (m0 : Meter) (a b : ℚ) :
    ((m.set_path p v).writes ≠ m.writes ↔ m.service.get p ≠ some v)
    ∧ (m.set_path p v).service.get p = some v
    ∧ (runUpdates m0 [(.netz_bezug, .num a), (.netz_einspeisung, .num b),
        (.netz_bezug, .num a), (.netz_einspeisung, .num b)]).writes
        = (runUpdates m0 [(.netz_bezug, .num a),
            (.netz_einspeisung, .num b)]).writes
    ∧ (runUpdates m0 [(.netz_bezug, .num a), (.netz_einspeisung, .num b),
        (.netz_bezug, .num a), (.netz_einspeisung, .num b)]).service.get
          .acPower = some (1000 * (a - b))
    ∧ (runUpdates m0 [(.netz_bezug, .num a),
        (.netz_einspeisung, .num b)]).service.get .acPower
        = some (1000 * (a - b)) := by
  have hrun2 : runUpdates m0 [(.netz_bezug, .num a), (.netz_einspeisung, .num b)]
      = (update (update m0 .netz_bezug (.num a)).1 .netz_einspeisung
          (.num b)).1 := rfl
  have hrun4 : runUpdates m0 [(.netz_bezug, .num a), (.netz_einspeisung, .num b),
      (.netz_bezug, .num a), (.netz_einspeisung, .num b)]
      = (update (update (update (update m0 .netz_bezug (.num a)).1
          .netz_einspeisung (.num b)).1 .netz_bezug (.num a)).1
          .netz_einspeisung (.num b)).1 := rfl
  have h1d : ((update m0 .netz_bezug (.num a)).1).data
      = m0.data.set .netz_bezug a := update_num_data ..
  have hb2 : (((update m0 .netz_bezug (.num a)).1).data.set .netz_einspeisung
      b).netz_bezug = some a := by
    rw [h1d]; simp [Data.set]
  have he2 : (((update m0 .netz_bezug (.num a)).1).data.set .netz_einspeisung
      b).netz_einspeisung = some b := by
    simp [Data.set]
  have e2 := update_balance_key ((update m0 .netz_bezug (.num a)).1)
    .netz_einspeisung b a b rfl rfl hb2 he2
  have h2P : ((update (update m0 .netz_bezug (.num a)).1 .netz_einspeisung
      (.num b)).1).service.get .acPower = some (1000 * (a - b)) := by
    rw [e2]
    exact Meter.set_path_get_same ..
  have h2d : ((update (update m0 .netz_bezug (.num a)).1 .netz_einspeisung
      (.num b)).1).data
      = ((update m0 .netz_bezug (.num a)).1).data.set .netz_einspeisung b :=
    update_num_data ..
  have h2e : ((update (update m0 .netz_bezug (.num a)).1 .netz_einspeisung
      (.num b)).1).data.netz_einspeisung = some b := by
    rw [h2d]; exact he2
  have hb3 : (((update (update m0 .netz_bezug (.num a)).1 .netz_einspeisung
      (.num b)).1).data.set .netz_bezug a).netz_bezug = some a := by
    simp [Data.set]
  have he3 : (((update (update m0 .netz_bezug (.num a)).1 .netz_einspeisung
      (.num b)).1).data.set .netz_bezug a).netz_einspeisung = some b := by
    simpa [Data.set] using h2e
  have e3 := update_balance_key_suppressed
    ((update (update m0 .netz_bezug (.num a)).1 .netz_einspeisung (.num b)).1)
    .netz_bezug a a b rfl rfl hb3 he3 h2P
  have h3w : ((update (update (update m0 .netz_bezug (.num a)).1
      .netz_einspeisung (.num b)).1 .netz_bezug (.num a)).1).writes
      = ((update (update m0 .netz_bezug (.num a)).1 .netz_einspeisung
          (.num b)).1).writes := by
    rw [e3]
  have h3s : ((update (update (update m0 .netz_bezug (.num a)).1
      .netz_einspeisung (.num b)).1 .netz_bezug (.num a)).1).service
      = ((update (update m0 .netz_bezug (.num a)).1 .netz_einspeisung
          (.num b)).1).service := by
    rw [e3]
  have h3P : ((update (update (update m0 .netz_bezug (.num a)).1
      .netz_einspeisung (.num b)).1 .netz_bezug (.num a)).1).service.get
      .acPower = some (1000 * (a - b)) := by
    rw [h3s]; exact h2P
  have h3d : ((update (update (update m0 .netz_bezug (.num a)).1
      .netz_einspeisung (.num b)).1 .netz_bezug (.num a)).1).data
      = ((update (update m0 .netz_bezug (.num a)).1 .netz_einspeisung
          (.num b)).1).data.set .netz_bezug a := update_num_data ..
  have hb4 : (((update (update (update m0 .netz_bezug (.num a)).1
      .netz_einspeisung (.num b)).1 .netz_bezug (.num a)).1).data.set
      .netz_einspeisung b).netz_bezug = some a := by
    rw [h3d]; simp [Data.set]
  have he4 : (((update (update (update m0 .netz_bezug (.num a)).1
      .netz_einspeisung (.num b)).1 .netz_bezug (.num a)).1).data.set
      .netz_einspeisung b).netz_einspeisung = some b := by
    simp [Data.set]
  have e4 := update_balance_key_suppressed
    ((update (update (update m0 .netz_bezug (.num a)).1 .netz_einspeisung
      (.num b)).1 .netz_bezug (.num a)).1)
    .netz_einspeisung b a b rfl rfl hb4 he4 h3P
  have h4w : ((update (update (update (update m0 .netz_bezug (.num a)).1
      .netz_einspeisung (.num b)).1 .netz_bezug (.num a)).1 .netz_einspeisung
      (.num b)).1).writes
      = ((update (update (update m0 .netz_bezug (.num a)).1 .netz_einspeisung
          (.num b)).1 .netz_bezug (.num a)).1).writes := by
    rw [e4]
  have h4s : ((update (update (update (update m0 .netz_bezug (.num a)).1
      .netz_einspeisung (.num b)).1 .netz_bezug (.num a)).1 .netz_einspeisung
      (.num b)).1).service
      = ((update (update (update m0 .netz_bezug (.num a)).1 .netz_einspeisung
          (.num b)).1 .netz_bezug (.num a)).1).service := by
    rw [e4]
  refine ⟨?_, Meter.set_path_get_same .., ?_, ?_, ?_⟩
  · by_cases hsv : m.service.get p = some v
    · simp [Meter.set_path_writes_of_get_eq _ _ _ hsv, hsv]
    · rw [Meter.set_path_writes_of_get_ne _ _ _ hsv]
      constructor
      · intro _; exact hsv
      · intro _ hcontra
        have hlen := congrArg List.length hcontra
        simp at hlen
  · rw [hrun4, hrun2, h4w, h3w]
  · rw [hrun4, h4s]; exact h3P
  · rw [hrun2]; exact h2P

end MqttMeter
